import Mathlib

set_option maxHeartbeats 1000000
set_option maxRecDepth 8000

/-!
Shallow embedding of the glacial-index climate reconstruction and the
temperature-index (degree-day) surface-mass-balance modules of the
paleo-glacier simulation repository:

* `simplified_glacial_index_clim.py` (`initialize`, `update`) — the glacial
  index built from a proxy temperature series, `np.interp`-based lookup with
  flat extrapolation, and the per-step precipitation/temperature blend;
* `paleo_smb.py` (`initialize`, `update`) — the positive-degree-day mass
  balance with snow-depth bookkeeping, hydrological-year shift, refreezing,
  densities conversion and the ice-mask sentinel;
* `paleo_clim.py` (`initialize`, `update`) — the anomaly-blend variant with
  the crop of mismatched anomaly grids.

Machine floats are modelled by exact rationals; numpy/tensorflow tensors are
modelled as a shape together with a total cell accessor (cells outside the
shape are junk that no modelled operation reads).  Elementwise tensor
operations follow numpy/tensorflow broadcasting: along each axis two dims
are compatible iff they are equal or one of them is 1 (`bcDim`), the result
dim is their maximum, and an operand whose dim along an axis is smaller
(necessarily 1) is read at index 0 on that axis (`bIdx`); dims that are
neither equal nor 1 raise.  The rank broadcast of a 2-D operand against a
3-D one aligns the trailing axes, and `tf.tile` over 12 months is modelled
by a month-independent term.  Wall-clock diagnostics (`tcomp_*` lists) and
logging are not modelled.
-/

/-- Numpy/tensorflow broadcast compatibility of two dims along one axis:
equal, or one of them is 1.  Dims that are neither (e.g. 2 against 3) make
the eager operation raise. -/
def bcDim (a b : ℕ) : Prop := a = b ∨ a = 1 ∨ b = 1

instance (a b : ℕ) : Decidable (bcDim a b) := by
  unfold bcDim
  infer_instance

/-- The index at which an operand of dim `d` is read along a broadcast axis
of size `t` (with `t` the max of the operand dims): a full-size operand
(`d = t`) is read at the running index, a broadcast (size-1) operand at 0. -/
def bIdx (d t i : ℕ) : ℕ := if d = t then i else 0

/-- A 2-D array of shape `(ny, nx)` (a numpy array / tensorflow tensor):
shape plus a total cell accessor. -/
structure Grid2 where
  ny : ℕ
  nx : ℕ
  val : ℕ → ℕ → ℚ

/-- A 3-D array of shape `(n, ny, nx)`, axis 0 being the month axis. -/
structure Grid3 where
  n : ℕ
  ny : ℕ
  nx : ℕ
  val : ℕ → ℕ → ℕ → ℚ

/-- Model of `np.interp(x, xp, yp, left=yp[0], right=yp[-1])` on a list of
`(x, y)` nodes with strictly increasing `x`: linear interpolation inside the
covered range and flat extrapolation at both ends (which is exactly what
passing `left=yp[0], right=yp[-1]` does).  An empty node list yields `0`
(never used by the modelled code). -/
def interpPts : List (ℚ × ℚ) → ℚ → ℚ
  | [], _ => 0
  | [(_, y1)], _ => y1
  | (x1, y1) :: (x2, y2) :: tl, x =>
    if x < x1 then y1
    else if x ≤ x2 then y1 + (y2 - y1) * (x - x1) / (x2 - x1)
    else interpPts ((x2, y2) :: tl) x

/-- Model of `np.nanmin` on a NaN-free series: the minimum of the list
(`0` on the empty list, never used there). -/
def minTemp : List ℚ → ℚ
  | [] => 0
  | [v] => v
  | v :: w :: tl => min v (minTemp (w :: tl))

/-- Model of `np.argmin`: the index of the first occurrence of the minimum
(`np.argmin` keeps the earliest index on ties). -/
def firstArgmin : List ℚ → ℕ
  | [] => 0
  | [_] => 0
  | v :: w :: tl => if v ≤ minTemp (w :: tl) then 0 else firstArgmin (w :: tl) + 1

lemma minTemp_le : ∀ (l : List ℚ), ∀ x ∈ l, minTemp l ≤ x
  | [], x, hx => absurd hx (List.not_mem_nil x)
  | [v], x, hx => by
    rcases List.mem_singleton.mp hx with h
    simp [minTemp, h]
  | v :: w :: tl, x, hx => by
    rcases List.mem_cons.mp hx with h | h
    · simp [minTemp, h, min_le_left]
    · exact le_trans (by simp [minTemp, min_le_right]) (minTemp_le (w :: tl) x h)

lemma firstArgmin_lt_length : ∀ (l : List ℚ), l ≠ [] → firstArgmin l < l.length
  | [], h => absurd rfl h
  | [v], _ => by simp [firstArgmin]
  | v :: w :: tl, _ => by
    by_cases hv : v ≤ minTemp (w :: tl)
    · simp [firstArgmin, hv]
    · have ih := firstArgmin_lt_length (w :: tl) (by simp)
      simp only [List.length_cons] at ih
      simp only [firstArgmin, if_neg hv, List.length_cons]
      omega

lemma getD_firstArgmin : ∀ (l : List ℚ), l ≠ [] → l.getD (firstArgmin l) 0 = minTemp l
  | [], h => absurd rfl h
  | [v], _ => by simp [firstArgmin, minTemp]
  | v :: w :: tl, _ => by
    by_cases hv : v ≤ minTemp (w :: tl)
    · simp [firstArgmin, hv, minTemp, min_eq_left hv]
    · have ih := getD_firstArgmin (w :: tl) (by simp)
      have hle : minTemp (w :: tl) ≤ v := le_of_not_le hv
      simp only [firstArgmin, if_neg hv, minTemp, min_eq_right hle, List.getD_cons_succ]
      exact ih

lemma getD_mem_of_lt {α : Type} : ∀ (l : List α) (i : ℕ) (d : α), i < l.length → l.getD i d ∈ l
  | [], i, _, h => by simp at h
  | a :: tl, 0, d, _ => by simp
  | a :: tl, i + 1, d, h => by
    have ih := getD_mem_of_lt tl i d (by simpa using h)
    rw [List.getD_cons_succ]
    exact List.mem_cons_of_mem a ih

lemma getD_map_snd : ∀ (l : List (ℚ × ℚ)) (i : ℕ), i < l.length →
    (l.map Prod.snd).getD i 0 = (l.getD i (0, 0)).2
  | [], i, h => by simp at h
  | p :: tl, 0, _ => by simp
  | p :: tl, i + 1, h => by
    have := getD_map_snd tl i (by simpa using h)
    simpa using this

lemma getD_map_fst : ∀ (l : List (ℚ × ℚ)) (i : ℕ), i < l.length →
    (l.map Prod.fst).getD i 0 = (l.getD i (0, 0)).1
  | [], i, h => by simp at h
  | p :: tl, 0, _ => by simp
  | p :: tl, i + 1, h => by
    have := getD_map_fst tl i (by simpa using h)
    simpa using this

/-- The last node of a node list (`(0, 0)` on the empty list). -/
def lastPair : List (ℚ × ℚ) → ℚ × ℚ
  | [] => (0, 0)
  | [p] => p
  | _ :: q :: tl => lastPair (q :: tl)

lemma lastPair_mem : ∀ (l : List (ℚ × ℚ)), l ≠ [] → lastPair l ∈ l
  | [], h => absurd rfl h
  | [p], _ => by simp [lastPair]
  | p :: q :: tl, _ => by
    have ih := lastPair_mem (q :: tl) (by simp)
    simp only [lastPair]
    exact List.mem_cons_of_mem p ih

/-- Evaluating the interpolant at a node of a strictly increasing node list
returns the node value exactly. -/
lemma interpPts_node : ∀ (l : List (ℚ × ℚ)),
    l.Pairwise (fun p q => p.1 < q.1) →
    ∀ (x y : ℚ), (x, y) ∈ l → interpPts l x = y
  | [], _, x, y, h => absurd h (List.not_mem_nil (x, y))
  | [(a, b)], _, x, y, h => by
    rw [List.mem_singleton, Prod.mk.injEq] at h
    simp [interpPts, h.2]
  | (x1, y1) :: (x2, y2) :: tl, hp, x, y, h => by
    have h12 : x1 < x2 :=
      (List.pairwise_cons.mp hp).1 (x2, y2) (List.mem_cons_self _ _)
    rcases List.mem_cons.mp h with heq | htl
    · rw [Prod.mk.injEq] at heq
      obtain ⟨hx, hy⟩ := heq
      subst hx; subst hy
      simp only [interpPts, if_neg (lt_irrefl x), if_pos (le_of_lt h12)]
      simp
    · have hx1x : x1 < x := (List.pairwise_cons.mp hp).1 (x, y) htl
      have hp2 : (List.Pairwise (fun p q => p.1 < q.1) ((x2, y2) :: tl)) :=
        (List.pairwise_cons.mp hp).2
      simp only [interpPts, if_neg (not_lt.mpr (le_of_lt hx1x))]
      by_cases hxle : x ≤ x2
      · rw [if_pos hxle]
        rcases List.mem_cons.mp htl with heq2 | htl2
        · rw [Prod.mk.injEq] at heq2
          obtain ⟨hx2, hy2⟩ := heq2
          subst hx2; subst hy2
          have hne : x - x1 ≠ 0 := sub_ne_zero.mpr (ne_of_gt hx1x)
          field_simp
        · exfalso
          have : x2 < x := (List.pairwise_cons.mp hp2).1 (x, y) htl2
          linarith
      · rw [if_neg hxle]
        exact interpPts_node ((x2, y2) :: tl) hp2 x y htl

/-- Flat extrapolation at the left (oldest) end: at or before the first node
the interpolant is constantly the first node value. -/
lemma interpPts_left : ∀ (l : List (ℚ × ℚ)),
    l.Pairwise (fun p q => p.1 < q.1) →
    ∀ x : ℚ, x ≤ (l.headD (0, 0)).1 → interpPts l x = (l.headD (0, 0)).2
  | [], _, x, _ => by simp [interpPts]
  | [(a, b)], _, x, _ => by simp [interpPts]
  | (x1, y1) :: (x2, y2) :: tl, hp, x, hx => by
    have h12 : x1 < x2 :=
      (List.pairwise_cons.mp hp).1 (x2, y2) (List.mem_cons_self _ _)
    simp only [List.headD_cons] at hx ⊢
    by_cases hlt : x < x1
    · simp only [interpPts, if_pos hlt]
    · have hxx1 : x = x1 := le_antisymm hx (not_lt.mp hlt)
      subst hxx1
      simp only [interpPts, if_neg hlt, if_pos (le_of_lt h12)]
      simp

/-- Flat extrapolation at the right (newest) end: at or after the last node
the interpolant is constantly the last node value. -/
lemma interpPts_right : ∀ (l : List (ℚ × ℚ)),
    l.Pairwise (fun p q => p.1 < q.1) →
    ∀ x : ℚ, (lastPair l).1 ≤ x → interpPts l x = (lastPair l).2
  | [], _, x, _ => by simp [interpPts, lastPair]
  | [(a, b)], _, x, _ => by simp [interpPts, lastPair]
  | (x1, y1) :: (x2, y2) :: tl, hp, x, hx => by
    have hp2 : (List.Pairwise (fun p q => p.1 < q.1) ((x2, y2) :: tl)) :=
      (List.pairwise_cons.mp hp).2
    have hlast : lastPair ((x1, y1) :: (x2, y2) :: tl) = lastPair ((x2, y2) :: tl) := rfl
    rw [hlast] at hx ⊢
    have hmem : lastPair ((x2, y2) :: tl) ∈ (x2, y2) :: tl :=
      lastPair_mem ((x2, y2) :: tl) (by simp)
    have hx2last : x2 ≤ (lastPair ((x2, y2) :: tl)).1 := by
      rcases List.mem_cons.mp hmem with heq | htl2
      · rw [heq]
      · exact le_of_lt ((List.pairwise_cons.mp hp2).1 _ htl2)
    have h12 : x1 < x2 :=
      (List.pairwise_cons.mp hp).1 (x2, y2) (List.mem_cons_self _ _)
    have hx1x : x1 < x := lt_of_lt_of_le (lt_of_lt_of_le h12 hx2last) hx
    simp only [interpPts, if_neg (not_lt.mpr (le_of_lt hx1x))]
    by_cases hxle : x ≤ x2
    · rw [if_pos hxle]
      cases tl with
      | nil =>
        have hxx2 : x = x2 := le_antisymm hxle (le_trans hx2last hx)
        subst hxx2
        have hne : x - x1 ≠ 0 := sub_ne_zero.mpr (ne_of_gt hx1x)
        simp only [lastPair]
        field_simp
      | cons q tl2 =>
        exfalso
        have hq : lastPair ((x2, y2) :: q :: tl2) ∈ q :: tl2 := by
          simp only [lastPair]
          exact lastPair_mem (q :: tl2) (by simp)
        have : x2 < (lastPair ((x2, y2) :: q :: tl2)).1 :=
          (List.pairwise_cons.mp hp2).1 _ hq
        linarith [le_trans this.le hx]
    · rw [if_neg hxle]
      exact interpPts_right ((x2, y2) :: tl) hp2 x hx

/-- The interpolant of a node list with non-negative values is everywhere
non-negative: every interior value is a convex combination of two adjacent
node values and the flat tails repeat an end node value. -/
lemma interpPts_nonneg : ∀ (l : List (ℚ × ℚ)),
    l.Pairwise (fun p q => p.1 < q.1) →
    (∀ p ∈ l, 0 ≤ p.2) → ∀ x : ℚ, 0 ≤ interpPts l x
  | [], _, _, x => by simp [interpPts]
  | [(a, b)], _, hv, x => by
    simpa [interpPts] using hv (a, b) (by simp)
  | (x1, y1) :: (x2, y2) :: tl, hp, hv, x => by
    have h12 : x1 < x2 :=
      (List.pairwise_cons.mp hp).1 (x2, y2) (List.mem_cons_self _ _)
    have hy1 : 0 ≤ y1 := hv (x1, y1) (by simp)
    have hy2 : 0 ≤ y2 := hv (x2, y2) (by simp)
    simp only [interpPts]
    by_cases hlt : x < x1
    · rw [if_pos hlt]; exact hy1
    · rw [if_neg hlt]
      by_cases hxle : x ≤ x2
      · rw [if_pos hxle]
        have hx1x : x1 ≤ x := not_lt.mp hlt
        have hden : (0 : ℚ) < x2 - x1 := sub_pos.mpr h12
        have hrw : y1 + (y2 - y1) * (x - x1) / (x2 - x1)
            = (y1 * (x2 - x) + y2 * (x - x1)) / (x2 - x1) := by
          field_simp
          ring
        rw [hrw]
        apply div_nonneg _ (le_of_lt hden)
        have h1 : 0 ≤ y1 * (x2 - x) := mul_nonneg hy1 (by linarith)
        have h2 : 0 ≤ y2 * (x - x1) := mul_nonneg hy2 (by linarith)
        linarith
      · rw [if_neg hxle]
        exact interpPts_nonneg ((x2, y2) :: tl) (List.pairwise_cons.mp hp).2
          (fun p hp₀ => hv p (List.mem_cons_of_mem _ hp₀)) x

namespace GlacialIndexClim

/-- The proxy series after polar amplification scaling
(`delta_T_data = delta_T_raw * params.polar_amplification_adjustment`),
kept as `(time, delta_T)` pairs; `raw` is the `(time_data, delta_T_raw)`
content of the delta-temperature file. -/
def adjSeries (raw : List (ℚ × ℚ)) (polarAdj : ℚ) : List (ℚ × ℚ) :=
  raw.map fun p => (p.1, p.2 * polarAdj)

/-- `minimum_temperature = np.nanmin(delta_T_data)`. -/
def minimum_temperature (raw : List (ℚ × ℚ)) (polarAdj : ℚ) : ℚ :=
  minTemp ((adjSeries raw polarAdj).map Prod.snd)

/-- `closest_1950_index = np.argmin(np.abs(time_data - 0))`. -/
def closest_1950_index (raw : List (ℚ × ℚ)) : ℕ :=
  firstArgmin (raw.map fun p => |p.1 - 0|)

/-- The proxy node at the present anchor index. -/
def anchor_pair (raw : List (ℚ × ℚ)) (polarAdj : ℚ) : ℚ × ℚ :=
  (adjSeries raw polarAdj).getD (closest_1950_index raw) (0, 0)

/-- `temperature_1950 = delta_T_data[closest_1950_index]`. -/
def temperature_1950 (raw : List (ℚ × ℚ)) (polarAdj : ℚ) : ℚ :=
  (anchor_pair raw polarAdj).2

/-- The proxy node at the (first) index where the adjusted series attains its
minimum. -/
def minimum_pair (raw : List (ℚ × ℚ)) (polarAdj : ℚ) : ℚ × ℚ :=
  (adjSeries raw polarAdj).getD
    (firstArgmin ((adjSeries raw polarAdj).map Prod.snd)) (0, 0)

/-- The nodes of the normalized glacial index over calendar years:
`glacial_index = (delta_T_data - minimum_temperature) / (temperature_1950 -
minimum_temperature)` with `calendar_years = time_data - params.year_0`. -/
def glacial_index_nodes (raw : List (ℚ × ℚ)) (polarAdj year0 : ℚ) : List (ℚ × ℚ) :=
  let m := minimum_temperature raw polarAdj
  let a := temperature_1950 raw polarAdj
  (adjSeries raw polarAdj).map fun p => (p.1 - year0, (p.2 - m) / (a - m))

/-- `state.glacial_index_at_runtime`: `np.interp(t, calendar_years,
glacial_index, left=glacial_index[0], right=glacial_index[-1])`. -/
def glacial_index_at_runtime (raw : List (ℚ × ℚ)) (polarAdj year0 t : ℚ) : ℚ :=
  interpPts (glacial_index_nodes raw polarAdj year0) t

/-- The nodes of the adjusted delta-temperature signal over calendar years. -/
def dT_nodes (raw : List (ℚ × ℚ)) (polarAdj year0 : ℚ) : List (ℚ × ℚ) :=
  (adjSeries raw polarAdj).map fun p => (p.1 - year0, p.2)

/-- `state.dT_at_runtime`: `np.interp(t, calendar_years, delta_T_data,
left=delta_T_data[0], right=delta_T_data[-1])`. -/
def dT_at_runtime (raw : List (ℚ × ℚ)) (polarAdj year0 t : ℚ) : ℚ :=
  interpPts (dT_nodes raw polarAdj year0) t

/-- The calendar-year coordinate at which the present anchor node sits (the
query time whose node carries glacial index 1). -/
def presentAnchorCalYear (raw : List (ℚ × ℚ)) (polarAdj year0 : ℚ) : ℚ :=
  (anchor_pair raw polarAdj).1 - year0

/-- The calendar-year coordinate of the node where the proxy series attains
its minimum. -/
def minimumCalYear (raw : List (ℚ × ℚ)) (polarAdj year0 : ℚ) : ℚ :=
  (minimum_pair raw polarAdj).1 - year0

/-- The calendar-year coordinate of the oldest node the series covers. -/
def oldestCalYear (raw : List (ℚ × ℚ)) (year0 : ℚ) : ℚ :=
  (raw.headD (0, 0)).1 - year0

/-- The calendar-year coordinate of the newest node the series covers. -/
def newestCalYear (raw : List (ℚ × ℚ)) (year0 : ℚ) : ℚ :=
  (lastPair raw).1 - year0

/-- Strictly increasing proxy times transfer to the glacial-index nodes. -/
lemma glacial_index_nodes_sorted (raw : List (ℚ × ℚ)) (polarAdj year0 : ℚ)
    (hsort : raw.Pairwise (fun p q => p.1 < q.1)) :
    (glacial_index_nodes raw polarAdj year0).Pairwise (fun p q => p.1 < q.1) := by
  unfold glacial_index_nodes adjSeries
  rw [List.map_map]
  exact hsort.map _ (fun a b h => by simpa using sub_lt_sub_right h year0)

lemma dT_nodes_sorted (raw : List (ℚ × ℚ)) (polarAdj year0 : ℚ)
    (hsort : raw.Pairwise (fun p q => p.1 < q.1)) :
    (dT_nodes raw polarAdj year0).Pairwise (fun p q => p.1 < q.1) := by
  unfold dT_nodes adjSeries
  rw [List.map_map]
  exact hsort.map _ (fun a b h => by simpa using sub_lt_sub_right h year0)

lemma adjSeries_length (raw : List (ℚ × ℚ)) (polarAdj : ℚ) :
    (adjSeries raw polarAdj).length = raw.length := by
  simp [adjSeries]

lemma anchor_pair_mem (raw : List (ℚ × ℚ)) (polarAdj : ℚ) (hne : raw ≠ []) :
    anchor_pair raw polarAdj ∈ adjSeries raw polarAdj := by
  apply getD_mem_of_lt
  rw [adjSeries_length]
  have := firstArgmin_lt_length (raw.map fun p => |p.1 - 0|)
    (by simpa using hne)
  simpa [closest_1950_index] using this

lemma minimum_pair_mem (raw : List (ℚ × ℚ)) (polarAdj : ℚ) (hne : raw ≠ []) :
    minimum_pair raw polarAdj ∈ adjSeries raw polarAdj := by
  apply getD_mem_of_lt
  have hne2 : adjSeries raw polarAdj ≠ [] := by
    simp [adjSeries, hne]
  have := firstArgmin_lt_length ((adjSeries raw polarAdj).map Prod.snd)
    (by simpa using hne2)
  simpa using this

lemma minimum_pair_snd (raw : List (ℚ × ℚ)) (polarAdj : ℚ) (hne : raw ≠ []) :
    (minimum_pair raw polarAdj).2 = minimum_temperature raw polarAdj := by
  have hne2 : adjSeries raw polarAdj ≠ [] := by
    simp [adjSeries, hne]
  have hlen : firstArgmin ((adjSeries raw polarAdj).map Prod.snd)
      < (adjSeries raw polarAdj).length := by
    have := firstArgmin_lt_length ((adjSeries raw polarAdj).map Prod.snd)
      (by simpa using hne2)
    simpa using this
  have h1 := getD_map_snd (adjSeries raw polarAdj)
    (firstArgmin ((adjSeries raw polarAdj).map Prod.snd)) hlen
  have h2 := getD_firstArgmin ((adjSeries raw polarAdj).map Prod.snd)
    (by simpa using hne2)
  unfold minimum_pair minimum_temperature
  rw [← h1, h2]

end GlacialIndexClim

namespace GlacialIndexClim

/-- The per-cell precipitation blend of `update`:
`state.prec_obs * (glacial_index_at_runtime + state.pr_adj_LGM * (1 -
glacial_index_at_runtime))`. -/
def precipBlendCell (obs G adjLGM : ℚ) : ℚ :=
  obs * (G + adjLGM * (1 - G))

/-- Parameters read by `simplified_glacial_index_clim.update`. -/
structure Params where
  paleo_clim_update_freq : ℚ
  temp_default_gradient : ℚ

/-- The component state mutated by `simplified_glacial_index_clim.update`.
The two interpolation closures installed by `initialize` are represented by
their node lists (`glacial_index_nodes` / `dT_nodes`). -/
structure State where
  t : ℚ
  tlast_clim_oggm : ℚ
  temp_obs : Grid3
  prec_obs : Grid3
  observed_elevation : Grid2
  usurf : Grid2
  pr_adj_LGM : ℚ
  giNodes : List (ℚ × ℚ)
  dTNodes : List (ℚ × ℚ)
  air_temp : Grid3
  precipitation : Grid3

/-- Failure of an eager tensor operation on mismatched operand shapes. -/
inductive Err where
  | shapeMismatch
deriving DecidableEq

/-- `simplified_glacial_index_clim.update`, with the in-place mutations of
the Python code made explicit in program order: past the cadence gate the
code first assigns `state.precipitation`, then `state.air_temp` (anomaly
addition; both are scalar ops that cannot fail), then computes the lapse
correction `temp_default_gradient * (usurf - observed_elevation)` — the
first operation that can fail, when `usurf` and `observed_elevation` have
non-broadcastable dims — tiles it over 12 months and adds it to
`state.air_temp` (failing when the correction's broadcast dims are
non-broadcastable with the temperature field's, or the month count is
neither 12 nor 1), and only then assigns `state.tlast_clim_oggm`.  A
failing call therefore leaves `tlast_clim_oggm` untouched but has already
overwritten `precipitation` and `air_temp` with the pre-correction
values. -/
def update (p : Params) (s : State) : State × Option Err :=
  if p.paleo_clim_update_freq ≤ s.t - s.tlast_clim_oggm then
    let G := interpPts s.giNodes s.t
    let dT := interpPts s.dTNodes s.t
    let prec1 : Grid3 := ⟨s.prec_obs.n, s.prec_obs.ny, s.prec_obs.nx,
      fun k i j => precipBlendCell (s.prec_obs.val k i j) G s.pr_adj_LGM⟩
    let temp1 : Grid3 := ⟨s.temp_obs.n, s.temp_obs.ny, s.temp_obs.nx,
      fun k i j => s.temp_obs.val k i j + dT⟩
    if bcDim s.usurf.ny s.observed_elevation.ny ∧
        bcDim s.usurf.nx s.observed_elevation.nx ∧
        bcDim s.temp_obs.n 12 ∧
        bcDim s.temp_obs.ny (max s.usurf.ny s.observed_elevation.ny) ∧
        bcDim s.temp_obs.nx (max s.usurf.nx s.observed_elevation.nx) then
      let temp2 : Grid3 := ⟨max s.temp_obs.n 12,
        max s.temp_obs.ny (max s.usurf.ny s.observed_elevation.ny),
        max s.temp_obs.nx (max s.usurf.nx s.observed_elevation.nx),
        fun k i j =>
          temp1.val (bIdx s.temp_obs.n (max s.temp_obs.n 12) k)
            (bIdx s.temp_obs.ny (max s.temp_obs.ny
              (max s.usurf.ny s.observed_elevation.ny)) i)
            (bIdx s.temp_obs.nx (max s.temp_obs.nx
              (max s.usurf.nx s.observed_elevation.nx)) j)
          + p.temp_default_gradient
            * (s.usurf.val
                (bIdx s.usurf.ny (max s.usurf.ny s.observed_elevation.ny)
                  (bIdx (max s.usurf.ny s.observed_elevation.ny)
                    (max s.temp_obs.ny (max s.usurf.ny s.observed_elevation.ny)) i))
                (bIdx s.usurf.nx (max s.usurf.nx s.observed_elevation.nx)
                  (bIdx (max s.usurf.nx s.observed_elevation.nx)
                    (max s.temp_obs.nx (max s.usurf.nx s.observed_elevation.nx)) j))
              - s.observed_elevation.val
                (bIdx s.observed_elevation.ny (max s.usurf.ny s.observed_elevation.ny)
                  (bIdx (max s.usurf.ny s.observed_elevation.ny)
                    (max s.temp_obs.ny (max s.usurf.ny s.observed_elevation.ny)) i))
                (bIdx s.observed_elevation.nx (max s.usurf.nx s.observed_elevation.nx)
                  (bIdx (max s.usurf.nx s.observed_elevation.nx)
                    (max s.temp_obs.nx (max s.usurf.nx s.observed_elevation.nx)) j)))⟩
      ({ s with precipitation := prec1, air_temp := temp2, tlast_clim_oggm := s.t }, none)
    else
      ({ s with precipitation := prec1, air_temp := temp1 }, some Err.shapeMismatch)
  else (s, none)

end GlacialIndexClim

/-- C1: for every proxy series with strictly increasing times whose anchor
temperature differs from its minimum, the glacial index interpolant is
exactly 1 at the calendar-year coordinate of the present anchor node and
exactly 0 at the calendar-year coordinate of the series minimum. -/
theorem glacial_index_anchor_one_min_zero
    (raw : List (ℚ × ℚ)) (polarAdj year0 : ℚ)
    (hne : raw ≠ [])
    (hsort : raw.Pairwise (fun p q => p.1 < q.1))
    (hdiff : GlacialIndexClim.temperature_1950 raw polarAdj
      ≠ GlacialIndexClim.minimum_temperature raw polarAdj) :
    GlacialIndexClim.glacial_index_at_runtime raw polarAdj year0
      (GlacialIndexClim.presentAnchorCalYear raw polarAdj year0) = 1 ∧
    GlacialIndexClim.glacial_index_at_runtime raw polarAdj year0
      (GlacialIndexClim.minimumCalYear raw polarAdj year0) = 0 := by
  have hd : GlacialIndexClim.temperature_1950 raw polarAdj
      - GlacialIndexClim.minimum_temperature raw polarAdj ≠ 0 :=
    sub_ne_zero.mpr hdiff
  have hsortN := GlacialIndexClim.glacial_index_nodes_sorted raw polarAdj year0 hsort
  constructor
  · have hmem := GlacialIndexClim.anchor_pair_mem raw polarAdj hne
    have hnode : (GlacialIndexClim.presentAnchorCalYear raw polarAdj year0,
        (1 : ℚ)) ∈ GlacialIndexClim.glacial_index_nodes raw polarAdj year0 := by
      unfold GlacialIndexClim.glacial_index_nodes
      have := List.mem_map_of_mem
        (fun p : ℚ × ℚ => (p.1 - year0,
          (p.2 - GlacialIndexClim.minimum_temperature raw polarAdj)
            / (GlacialIndexClim.temperature_1950 raw polarAdj
              - GlacialIndexClim.minimum_temperature raw polarAdj))) hmem
      have hval : ((GlacialIndexClim.anchor_pair raw polarAdj).2
          - GlacialIndexClim.minimum_temperature raw polarAdj)
          / (GlacialIndexClim.temperature_1950 raw polarAdj
            - GlacialIndexClim.minimum_temperature raw polarAdj) = 1 := by
        rw [show (GlacialIndexClim.anchor_pair raw polarAdj).2
          = GlacialIndexClim.temperature_1950 raw polarAdj from rfl]
        exact div_self hd
      simpa [GlacialIndexClim.presentAnchorCalYear, hval] using this
    exact interpPts_node _ hsortN _ _ hnode
  · have hmem := GlacialIndexClim.minimum_pair_mem raw polarAdj hne
    have hnode : (GlacialIndexClim.minimumCalYear raw polarAdj year0,
        (0 : ℚ)) ∈ GlacialIndexClim.glacial_index_nodes raw polarAdj year0 := by
      unfold GlacialIndexClim.glacial_index_nodes
      have := List.mem_map_of_mem
        (fun p : ℚ × ℚ => (p.1 - year0,
          (p.2 - GlacialIndexClim.minimum_temperature raw polarAdj)
            / (GlacialIndexClim.temperature_1950 raw polarAdj
              - GlacialIndexClim.minimum_temperature raw polarAdj))) hmem
      have hval : ((GlacialIndexClim.minimum_pair raw polarAdj).2
          - GlacialIndexClim.minimum_temperature raw polarAdj)
          / (GlacialIndexClim.temperature_1950 raw polarAdj
            - GlacialIndexClim.minimum_temperature raw polarAdj) = 0 := by
        rw [GlacialIndexClim.minimum_pair_snd raw polarAdj hne, sub_self, zero_div]
      simpa [GlacialIndexClim.minimumCalYear, hval] using this
    exact interpPts_node _ hsortN _ _ hnode

/-- Witness for C1 on a concrete three-node proxy series. -/
theorem glacial_index_anchor_one_min_zero_witness :
    GlacialIndexClim.glacial_index_at_runtime [(-2, -10), (-1, -4), (0, 0)] 1 1950
      (GlacialIndexClim.presentAnchorCalYear [(-2, -10), (-1, -4), (0, 0)] 1 1950) = 1 ∧
    GlacialIndexClim.glacial_index_at_runtime [(-2, -10), (-1, -4), (0, 0)] 1 1950
      (GlacialIndexClim.minimumCalYear [(-2, -10), (-1, -4), (0, 0)] 1 1950) = 0 :=
  glacial_index_anchor_one_min_zero [(-2, -10), (-1, -4), (0, 0)] 1 1950
    (by simp) (by norm_num [List.pairwise_cons])
    (by norm_num [GlacialIndexClim.temperature_1950, GlacialIndexClim.anchor_pair,
      GlacialIndexClim.minimum_temperature, GlacialIndexClim.adjSeries,
      GlacialIndexClim.closest_1950_index, firstArgmin, minTemp, min_def, abs])

lemma lastPair_map (f : ℚ × ℚ → ℚ × ℚ) :
    ∀ (l : List (ℚ × ℚ)), l ≠ [] → lastPair (l.map f) = f (lastPair l)
  | [], h => absurd rfl h
  | [p], _ => rfl
  | p :: q :: tl, _ => by
    have ih := lastPair_map f (q :: tl) (by simp)
    simpa [lastPair] using ih

/-- C2: queries at or before the oldest covered calendar year return the
value at the oldest node, and queries at or after the newest covered
calendar year return the value at the newest node — flat extrapolation at
both ends of the domain, never linear. -/
theorem glacial_index_flat_extrapolation
    (raw : List (ℚ × ℚ)) (polarAdj year0 : ℚ)
    (hsort : raw.Pairwise (fun p q => p.1 < q.1)) :
    (∀ t : ℚ, t ≤ GlacialIndexClim.oldestCalYear raw year0 →
      GlacialIndexClim.glacial_index_at_runtime raw polarAdj year0 t
        = GlacialIndexClim.glacial_index_at_runtime raw polarAdj year0
            (GlacialIndexClim.oldestCalYear raw year0)) ∧
    (∀ t : ℚ, GlacialIndexClim.newestCalYear raw year0 ≤ t →
      GlacialIndexClim.glacial_index_at_runtime raw polarAdj year0 t
        = GlacialIndexClim.glacial_index_at_runtime raw polarAdj year0
            (GlacialIndexClim.newestCalYear raw year0)) := by
  have hsortN := GlacialIndexClim.glacial_index_nodes_sorted raw polarAdj year0 hsort
  cases raw with
  | nil =>
    constructor
    · intro t _
      simp [GlacialIndexClim.glacial_index_at_runtime,
        GlacialIndexClim.glacial_index_nodes, GlacialIndexClim.adjSeries, interpPts]
    · intro t _
      simp [GlacialIndexClim.glacial_index_at_runtime,
        GlacialIndexClim.glacial_index_nodes, GlacialIndexClim.adjSeries, interpPts]
  | cons p rest =>
    have hhead : ((GlacialIndexClim.glacial_index_nodes (p :: rest) polarAdj year0).headD
        (0, 0)).1 = GlacialIndexClim.oldestCalYear (p :: rest) year0 := by
      simp [GlacialIndexClim.glacial_index_nodes, GlacialIndexClim.adjSeries,
        GlacialIndexClim.oldestCalYear]
    have hlastp : (lastPair (GlacialIndexClim.glacial_index_nodes (p :: rest) polarAdj year0)).1
        = GlacialIndexClim.newestCalYear (p :: rest) year0 := by
      unfold GlacialIndexClim.glacial_index_nodes GlacialIndexClim.adjSeries
      rw [List.map_map, lastPair_map _ (p :: rest) (by simp)]
      simp [GlacialIndexClim.newestCalYear]
    constructor
    · intro t ht
      have h1 := interpPts_left _ hsortN t (by rw [hhead]; exact ht)
      have h2 := interpPts_left _ hsortN
        (GlacialIndexClim.oldestCalYear (p :: rest) year0) (by rw [hhead])
      unfold GlacialIndexClim.glacial_index_at_runtime
      rw [h1, h2]
    · intro t ht
      have h1 := interpPts_right _ hsortN t (by rw [hlastp]; exact ht)
      have h2 := interpPts_right _ hsortN
        (GlacialIndexClim.newestCalYear (p :: rest) year0) (by rw [hlastp])
      unfold GlacialIndexClim.glacial_index_at_runtime
      rw [h1, h2]

/-- Witness for C2 on a concrete three-node proxy series, one query beyond
each end of the covered range. -/
theorem glacial_index_flat_extrapolation_witness :
    GlacialIndexClim.glacial_index_at_runtime [(-2, -10), (-1, -4), (0, 0)] 1 1950 (-3000)
      = GlacialIndexClim.glacial_index_at_runtime [(-2, -10), (-1, -4), (0, 0)] 1 1950
          (GlacialIndexClim.oldestCalYear [(-2, -10), (-1, -4), (0, 0)] 1950) ∧
    GlacialIndexClim.glacial_index_at_runtime [(-2, -10), (-1, -4), (0, 0)] 1 1950 5000
      = GlacialIndexClim.glacial_index_at_runtime [(-2, -10), (-1, -4), (0, 0)] 1 1950
          (GlacialIndexClim.newestCalYear [(-2, -10), (-1, -4), (0, 0)] 1950) :=
  ⟨(glacial_index_flat_extrapolation [(-2, -10), (-1, -4), (0, 0)] 1 1950
      (by norm_num [List.pairwise_cons])).1
      (-3000) (by norm_num [GlacialIndexClim.oldestCalYear]),
   (glacial_index_flat_extrapolation [(-2, -10), (-1, -4), (0, 0)] 1 1950
      (by norm_num [List.pairwise_cons])).2
      5000 (by norm_num [GlacialIndexClim.newestCalYear, lastPair])⟩

/-- C3: the precipitation blend applied per cell by
`simplified_glacial_index_clim.update` is monotonically non-decreasing in
the glacial index, for any fixed adjustment factor in `[0, 1]` and
non-negative observed precipitation. -/
theorem precip_blend_monotone_in_index (obs adjLGM G1 G2 : ℚ)
    (h0 : 0 ≤ adjLGM) (h1 : adjLGM ≤ 1) (hobs : 0 ≤ obs) (hG : G1 ≤ G2) :
    GlacialIndexClim.precipBlendCell obs G1 adjLGM
      ≤ GlacialIndexClim.precipBlendCell obs G2 adjLGM := by
  unfold GlacialIndexClim.precipBlendCell
  nlinarith [mul_nonneg (mul_nonneg hobs (sub_nonneg.mpr h1)) (sub_nonneg.mpr hG)]

/-- Witness for C3 at a concrete cell. -/
theorem precip_blend_monotone_in_index_witness :
    GlacialIndexClim.precipBlendCell 3 (1/4) (1/2)
      ≤ GlacialIndexClim.precipBlendCell 3 (3/4) (1/2) :=
  precip_blend_monotone_in_index 3 (1/2) (1/4) (3/4)
    (by norm_num) (by norm_num) (by norm_num) (by norm_num)

/-- C10: when the anchor temperature is strictly above the series minimum,
every glacial-index node is non-negative, hence so is every interpolated or
clamped query value; consequently the per-cell blended precipitation of
`update` is non-negative for non-negative observed precipitation and an
adjustment factor in `[0, 1]`. -/
theorem glacial_index_nonneg_and_precip_nonneg
    (raw : List (ℚ × ℚ)) (polarAdj year0 : ℚ)
    (hsort : raw.Pairwise (fun p q => p.1 < q.1))
    (hgt : GlacialIndexClim.minimum_temperature raw polarAdj
      < GlacialIndexClim.temperature_1950 raw polarAdj) :
    (∀ t : ℚ, 0 ≤ GlacialIndexClim.glacial_index_at_runtime raw polarAdj year0 t) ∧
    (∀ t obs adjLGM : ℚ, 0 ≤ obs → 0 ≤ adjLGM → adjLGM ≤ 1 →
      0 ≤ GlacialIndexClim.precipBlendCell obs
            (GlacialIndexClim.glacial_index_at_runtime raw polarAdj year0 t) adjLGM) := by
  have hsortN := GlacialIndexClim.glacial_index_nodes_sorted raw polarAdj year0 hsort
  have hnodes : ∀ q ∈ GlacialIndexClim.glacial_index_nodes raw polarAdj year0, 0 ≤ q.2 := by
    intro q hq
    unfold GlacialIndexClim.glacial_index_nodes at hq
    rcases List.mem_map.mp hq with ⟨r, hr, hrq⟩
    have hmin : GlacialIndexClim.minimum_temperature raw polarAdj ≤ r.2 := by
      unfold GlacialIndexClim.minimum_temperature
      exact minTemp_le _ r.2 (List.mem_map_of_mem Prod.snd hr)
    rw [← hrq]
    exact div_nonneg (by simpa using sub_nonneg.mpr hmin)
      (le_of_lt (sub_pos.mpr hgt))
  have hGν : ∀ t : ℚ, 0 ≤ GlacialIndexClim.glacial_index_at_runtime raw polarAdj year0 t :=
    fun t => interpPts_nonneg _ hsortN hnodes t
  refine ⟨hGν, fun t obs adjLGM hobs h0 h1 => ?_⟩
  unfold GlacialIndexClim.precipBlendCell
  apply mul_nonneg hobs
  nlinarith [mul_nonneg (hGν t) (sub_nonneg.mpr h1)]

/-- Witness for C10 on a concrete proxy series, query time and cell. -/
theorem glacial_index_nonneg_and_precip_nonneg_witness :
    0 ≤ GlacialIndexClim.glacial_index_at_runtime [(-2, -10), (-1, -4), (0, 0)] 1 1950 7 ∧
    0 ≤ GlacialIndexClim.precipBlendCell 2
          (GlacialIndexClim.glacial_index_at_runtime [(-2, -10), (-1, -4), (0, 0)] 1 1950 7)
          (1/2) :=
  ⟨(glacial_index_nonneg_and_precip_nonneg [(-2, -10), (-1, -4), (0, 0)] 1 1950
      (by norm_num [List.pairwise_cons])
      (by norm_num [GlacialIndexClim.temperature_1950, GlacialIndexClim.anchor_pair,
        GlacialIndexClim.minimum_temperature, GlacialIndexClim.adjSeries,
        GlacialIndexClim.closest_1950_index, firstArgmin, minTemp, min_def, abs])).1 7,
   (glacial_index_nonneg_and_precip_nonneg [(-2, -10), (-1, -4), (0, 0)] 1 1950
      (by norm_num [List.pairwise_cons])
      (by norm_num [GlacialIndexClim.temperature_1950, GlacialIndexClim.anchor_pair,
        GlacialIndexClim.minimum_temperature, GlacialIndexClim.adjSeries,
        GlacialIndexClim.closest_1950_index, firstArgmin, minTemp, min_def, abs])).2
      7 2 (1/2) (by norm_num) (by norm_num) (by norm_num)⟩

namespace PaleoSmb

/-- Parameters read by `paleo_smb.update` (after `initialize` copied the two
precipitation thresholds into `thr_temp_snow` / `thr_temp_rain`). -/
structure Params where
  smb_paleo_update_freq : ℚ
  smb_oggm_ice_density : ℚ
  smb_oggm_wat_density : ℚ
  thr_temp_snow : ℚ
  thr_temp_rain : ℚ
  smb_accpdd_melt_factor_snow : ℚ
  smb_accpdd_melt_factor_ice : ℚ
  smb_accpdd_shift_hydro_year : ℚ
  smb_accpdd_refreeze_factor : ℚ

/-- The hydrological-year month rotation
`k = (kk + int(n * smb_accpdd_shift_hydro_year)) % n`
(Python `int` truncation equals the floor for the non-negative shifts
used). -/
def hydroShiftIdx (n : ℕ) (shift : ℚ) (kk : ℕ) : ℕ :=
  (kk + (Int.floor ((n : ℚ) * shift)).toNat) % n

/-- The month indices in the order the 12-month loop visits them. -/
def monthOrder (n : ℕ) (shift : ℚ) : List ℕ :=
  (List.range n).map (hydroShiftIdx n shift)

/-- One cell, at broadcast coordinates, of the `accumulation` tensor after
the two unit divisions: the `tf.where` chain broadcasts `air_temp` against
`precipitation` (shape the elementwise maxima; a size-1 axis is read at 0),
giving solid precipitation below `thr_temp_snow`, zero above
`thr_temp_rain`, a linear ramp in between; then `/= shape[0]` (the
broadcast month count) and `/= wat_density`. -/
def accumulationCell (p : Params) (airTemp precip : Grid3) (k i j : ℕ) : ℚ :=
  let ta := airTemp.val (bIdx airTemp.n (max airTemp.n precip.n) k)
    (bIdx airTemp.ny (max airTemp.ny precip.ny) i)
    (bIdx airTemp.nx (max airTemp.nx precip.nx) j)
  let pr := precip.val (bIdx precip.n (max airTemp.n precip.n) k)
    (bIdx precip.ny (max airTemp.ny precip.ny) i)
    (bIdx precip.nx (max airTemp.nx precip.nx) j)
  (if ta ≤ p.thr_temp_snow then pr
   else if p.thr_temp_rain ≤ ta then 0
   else pr * (p.thr_temp_rain - ta) / (p.thr_temp_rain - p.thr_temp_snow))
  / ((max airTemp.n precip.n : ℕ) : ℚ) / p.smb_oggm_wat_density

/-- One cell of `pos_temp_year` (positive part of `air_temp`, then
`/= air_temp.shape[0]`), read at the broadcast spatial coordinates at which
the snow loop combines it with the broadcast-shaped snow depth. -/
def posTempCell (airTemp precip : Grid3) (k i j : ℕ) : ℚ :=
  (if 0 < airTemp.val k (bIdx airTemp.ny (max airTemp.ny precip.ny) i)
        (bIdx airTemp.nx (max airTemp.nx precip.nx) j)
   then airTemp.val k (bIdx airTemp.ny (max airTemp.ny precip.ny) i)
        (bIdx airTemp.nx (max airTemp.nx precip.nx) j)
   else 0)
  / (airTemp.n : ℚ)

/-- The per-month ablation loop: for each visited month it adds the month's
accumulation to the snow depth, emits the ablation of that month (ice melt
on bare ground, snow melt while snow lasts, otherwise the blended
snow-then-ice term), and clips the reduced snow depth to `[0, 1e10]`
(`tf.clip_by_value`).  Returns the emitted ablation fields in visit
order. -/
def snowLoop (acc pos : ℕ → ℕ → ℕ → ℚ) (mfs mfi : ℚ) :
    List ℕ → (ℕ → ℕ → ℚ) → List (ℕ → ℕ → ℚ)
  | [], _ => []
  | k :: ks, snow =>
    let snow1 : ℕ → ℕ → ℚ := fun i j => snow i j + acc k i j
    let abl : ℕ → ℕ → ℚ := fun i j =>
      if snow1 i j = 0 then pos k i j * mfi
      else if pos k i j * mfs < snow1 i j then pos k i j * mfs
      else snow1 i j + (pos k i j - snow1 i j / mfs) * mfi
    abl :: snowLoop acc pos mfs mfi ks
      (fun i j => min (max (snow1 i j - abl i j) 0) (10 ^ 10))

/-- The full mass-balance computation of `paleo_smb.update` past the cadence
gate: `none` models the eager-tensorflow failure when `air_temp` and
`precipitation` have non-broadcastable dims on some axis (the only shape
requirement the code actually imposes — broadcastable mismatches such as
`(12,1,3)` against `(12,3,3)` succeed, there is no first-axis-length-12
check, and `usurf` is never read).  On success the cell value is
`reduce_sum(accumulation - (1 - refreeze) * stack(ablation), axis=0) *
(wat_density / ice_density)`: the result has the broadcast spatial shape;
the accumulation axis has the broadcast month count while the ablation
stack has `air_temp.shape[0]` entries (the loop runs over
`range(air_temp.shape[0])`), so the subtraction broadcasts the stack when
`air_temp` has a single month. -/
def computeSmb (p : Params) (airTemp precip : Grid3) : Option Grid2 :=
  if bcDim airTemp.n precip.n ∧ bcDim airTemp.ny precip.ny ∧
      bcDim airTemp.nx precip.nx then
    some ⟨max airTemp.ny precip.ny, max airTemp.nx precip.nx, fun i j =>
      (((List.range (max airTemp.n precip.n)).map
          fun m => accumulationCell p airTemp precip m i j).sum
        - (1 - p.smb_accpdd_refreeze_factor)
          * (((List.range (max airTemp.n precip.n)).map fun m =>
              ((snowLoop (accumulationCell p airTemp precip) (posTempCell airTemp precip)
                  p.smb_accpdd_melt_factor_snow p.smb_accpdd_melt_factor_ice
                  (monthOrder airTemp.n p.smb_accpdd_shift_hydro_year)
                  (fun _ _ => 0)).getD
                (bIdx airTemp.n (max airTemp.n precip.n) m) (fun _ _ => 0)) i j).sum))
      * (p.smb_oggm_wat_density / p.smb_oggm_ice_density)⟩
  else none

/-- The ice-mask postprocessing
`tf.where((smb < 0) | (icemask > 0.5), smb, -10)`: `tf.logical_or` and
`tf.where` broadcast their operands, so the result has the broadcast
spatial shape and only non-broadcastable mask dims fail. -/
def maskSmb (smb icemask : Grid2) : Option Grid2 :=
  if bcDim smb.ny icemask.ny ∧ bcDim smb.nx icemask.nx then
    some ⟨max smb.ny icemask.ny, max smb.nx icemask.nx, fun i j =>
      if smb.val (bIdx smb.ny (max smb.ny icemask.ny) i)
            (bIdx smb.nx (max smb.nx icemask.nx) j) < 0
          ∨ (1 : ℚ) / 2 < icemask.val (bIdx icemask.ny (max smb.ny icemask.ny) i)
            (bIdx icemask.nx (max smb.nx icemask.nx) j)
      then smb.val (bIdx smb.ny (max smb.ny icemask.ny) i)
            (bIdx smb.nx (max smb.nx icemask.nx) j)
      else -10⟩
  else none

/-- The component state mutated by `paleo_smb.update`.  The snow depth is a
local variable of one `update` call (reset to zeros each pass), so it is not
part of the persisted state. -/
structure State where
  t : ℚ
  tlast_mb : ℚ
  air_temp : Grid3
  precipitation : Grid3
  smb : Grid2
  icemask : Option Grid2

/-- Failure of an eager tensor operation on mismatched operand shapes. -/
inductive Err where
  | shapeMismatch
deriving DecidableEq

/-- `paleo_smb.update` with the in-place mutations of the Python code made
explicit in program order: nothing happens while the cadence gate is unmet;
past the gate the whole accumulation/ablation pass is computed before
`state.smb` is first assigned, the optional ice-mask `tf.where` reassigns
`state.smb` afterwards, and `state.tlast_mb` is assigned last — so a
failure in the masking step leaves the freshly computed (unmasked) `smb`
published while `tlast_mb` still holds its old value. -/
def update (p : Params) (s : State) : State × Option Err :=
  if p.smb_paleo_update_freq ≤ s.t - s.tlast_mb then
    match computeSmb p s.air_temp s.precipitation with
    | none => (s, some Err.shapeMismatch)
    | some smb1 =>
      match s.icemask with
      | none => ({ s with smb := smb1, tlast_mb := s.t }, none)
      | some m =>
        match maskSmb smb1 m with
        | none => ({ s with smb := smb1 }, some Err.shapeMismatch)
        | some smb2 => ({ s with smb := smb2, tlast_mb := s.t }, none)
  else (s, none)

end PaleoSmb

lemma sum_map_div (l : List ℕ) (f : ℕ → ℚ) (c : ℚ) :
    (l.map fun m => f m / c).sum = (l.map f).sum / c := by
  induction l with
  | nil => simp
  | cons a tl ih => simp [ih, div_add_div_same]

namespace PaleoSmb

/-- With both melt factors zero and non-negative per-month accumulation at a
cell, every ablation field the loop emits is zero at that cell: the snow
depth stays non-negative, so the blended third branch (the only one that
could be non-zero) is never selected. -/
lemma snowLoop_zero_melt (acc pos : ℕ → ℕ → ℕ → ℚ) (i j : ℕ) :
    ∀ (ks : List ℕ) (snow : ℕ → ℕ → ℚ),
      (∀ k ∈ ks, 0 ≤ acc k i j) → 0 ≤ snow i j →
      ∀ a ∈ snowLoop acc pos 0 0 ks snow, a i j = 0
  | [], snow, _, _, a, ha => absurd ha (List.not_mem_nil a)
  | k :: ks, snow, hacc, hsnow, a, ha => by
    have hs1 : 0 ≤ snow i j + acc k i j :=
      add_nonneg hsnow (hacc k (List.mem_cons_self _ _))
    have habl : (fun i j =>
        if snow i j + acc k i j = 0 then pos k i j * 0
        else if pos k i j * 0 < snow i j + acc k i j then pos k i j * 0
        else snow i j + acc k i j
          + (pos k i j - (snow i j + acc k i j) / 0) * 0) i j = 0 := by
      by_cases h0 : snow i j + acc k i j = 0
      · simp [h0]
      · have hpos : 0 < snow i j + acc k i j := lt_of_le_of_ne hs1 (Ne.symm h0)
        simp [h0, hpos]
    simp only [snowLoop] at ha
    rcases List.mem_cons.mp ha with rfl | hrest
    · simpa using habl
    · have hnext : 0 ≤ (fun i j =>
          min (max ((snow i j + acc k i j)
            - (if snow i j + acc k i j = 0 then pos k i j * 0
               else if pos k i j * 0 < snow i j + acc k i j then pos k i j * 0
               else snow i j + acc k i j
                 + (pos k i j - (snow i j + acc k i j) / 0) * 0)) 0) (10 ^ 10)) i j := by
        simp only
        apply le_min (le_max_right _ 0) (by positivity)
      exact snowLoop_zero_melt acc pos i j ks _
        (fun m hm => hacc m (List.mem_cons_of_mem k hm)) hnext a hrest

/-- Every month index the loop visits is below the month count. -/
lemma monthOrder_mem_lt (n : ℕ) (shift : ℚ) (hn : 0 < n) :
    ∀ k ∈ monthOrder n shift, k < n := by
  intro k hk
  rcases List.mem_map.mp hk with ⟨kk, _, hkk⟩
  rw [← hkk]
  exact Nat.mod_lt _ hn

/-- The ablation stack has one entry per visited month. -/
lemma snowLoop_length (acc pos : ℕ → ℕ → ℕ → ℚ) (mfs mfi : ℚ) :
    ∀ (ks : List ℕ) (snow : ℕ → ℕ → ℚ),
      (snowLoop acc pos mfs mfi ks snow).length = ks.length
  | [], _ => rfl
  | k :: ks, snow => by
    simp only [snowLoop, List.length_cons]
    rw [snowLoop_length acc pos mfs mfi ks]

lemma monthOrder_length (n : ℕ) (shift : ℚ) : (monthOrder n shift).length = n := by
  simp [monthOrder]

end PaleoSmb

/-- A full-size operand is read at the running index. -/
@[simp] lemma bIdx_self (d i : ℕ) : bIdx d d i = i := by
  simp [bIdx]

/-- C4 (amended): in the accumulation-only case (all monthly air
temperatures at or below `thr_temp_snow`, both melt factors zero,
non-negative monthly precipitation, positive densities) for a forcing pair
of identical dims (the standard non-broadcast `(12, ny, nx)` forcing, the
only case in which a per-cell identity between the two tensors is
well-posed), the computed mass balance satisfies
`smb * ice_density / wat_density = (sum of the monthly precipitation
values) / (n * wat_density)` at every cell — the extra factor `n` (= 12 for
monthly forcing) comes from the `accumulation /= accumulation.shape[0]`
unit conversion that the original claim omits. -/
theorem smb_accumulation_only_div12
    (p : PaleoSmb.Params) (airTemp precip : Grid3) (g : Grid2) (i j : ℕ)
    (hg : PaleoSmb.computeSmb p airTemp precip = some g)
    (hdims : airTemp.n = precip.n ∧ airTemp.ny = precip.ny ∧ airTemp.nx = precip.nx)
    (hcold : ∀ k, k < airTemp.n → airTemp.val k i j ≤ p.thr_temp_snow)
    (hprec : ∀ k, k < airTemp.n → 0 ≤ precip.val k i j)
    (hmfs : p.smb_accpdd_melt_factor_snow = 0)
    (hmfi : p.smb_accpdd_melt_factor_ice = 0)
    (hwat : 0 < p.smb_oggm_wat_density)
    (hice : p.smb_oggm_ice_density ≠ 0)
    (hn : 0 < airTemp.n) :
    g.val i j * (p.smb_oggm_ice_density / p.smb_oggm_wat_density)
      = ((List.range airTemp.n).map fun k => precip.val k i j).sum
        / ((airTemp.n : ℚ) * p.smb_oggm_wat_density) := by
  obtain ⟨h1, h2, h3⟩ := hdims
  have hcond : bcDim airTemp.n precip.n ∧ bcDim airTemp.ny precip.ny ∧
      bcDim airTemp.nx precip.nx := ⟨Or.inl h1, Or.inl h2, Or.inl h3⟩
  rw [PaleoSmb.computeSmb, if_pos hcond] at hg
  obtain rfl := Option.some.inj hg
  have hacc : ∀ k, k < airTemp.n →
      PaleoSmb.accumulationCell p airTemp precip k i j
        = precip.val k i j / (airTemp.n : ℚ) / p.smb_oggm_wat_density := by
    intro k hk
    unfold PaleoSmb.accumulationCell
    simp only [← h1, ← h2, ← h3, max_self, bIdx_self]
    rw [if_pos (hcold k hk)]
  have haccpos : ∀ k ∈ PaleoSmb.monthOrder airTemp.n p.smb_accpdd_shift_hydro_year,
      0 ≤ PaleoSmb.accumulationCell p airTemp precip k i j := by
    intro k hk
    have hklt := PaleoSmb.monthOrder_mem_lt airTemp.n p.smb_accpdd_shift_hydro_year hn k hk
    rw [hacc k hklt]
    exact div_nonneg (div_nonneg (hprec k hklt) (Nat.cast_nonneg _)) (le_of_lt hwat)
  have habl0 : ((List.range airTemp.n).map fun m =>
      ((PaleoSmb.snowLoop (PaleoSmb.accumulationCell p airTemp precip)
          (PaleoSmb.posTempCell airTemp precip)
          p.smb_accpdd_melt_factor_snow p.smb_accpdd_melt_factor_ice
          (PaleoSmb.monthOrder airTemp.n p.smb_accpdd_shift_hydro_year)
          (fun _ _ => 0)).getD m (fun _ _ => 0)) i j).sum = 0 := by
    apply List.sum_eq_zero
    intro x hx
    rcases List.mem_map.mp hx with ⟨m, hm, rfl⟩
    have hmlt : m < airTemp.n := List.mem_range.mp hm
    have hlen : (PaleoSmb.snowLoop (PaleoSmb.accumulationCell p airTemp precip)
        (PaleoSmb.posTempCell airTemp precip)
        p.smb_accpdd_melt_factor_snow p.smb_accpdd_melt_factor_ice
        (PaleoSmb.monthOrder airTemp.n p.smb_accpdd_shift_hydro_year)
        (fun _ _ => 0)).length = airTemp.n := by
      rw [PaleoSmb.snowLoop_length, PaleoSmb.monthOrder_length]
    have hmem := getD_mem_of_lt _ m ((fun _ _ => 0) : ℕ → ℕ → ℚ) (hlen ▸ hmlt)
    rw [hmfs, hmfi] at hmem ⊢
    exact PaleoSmb.snowLoop_zero_melt
      (PaleoSmb.accumulationCell p airTemp precip) (PaleoSmb.posTempCell airTemp precip) i j
      (PaleoSmb.monthOrder airTemp.n p.smb_accpdd_shift_hydro_year)
      (fun _ _ => 0) haccpos le_rfl _ hmem
  have hsum : ((List.range airTemp.n).map
      fun m => PaleoSmb.accumulationCell p airTemp precip m i j).sum
        = ((List.range airTemp.n).map fun k => precip.val k i j).sum
          / (airTemp.n : ℚ) / p.smb_oggm_wat_density := by
    rw [List.map_congr_left (fun m hm => hacc m (List.mem_range.mp hm))]
    rw [show ((List.range airTemp.n).map
        fun m => precip.val m i j / (airTemp.n : ℚ) / p.smb_oggm_wat_density)
        = ((List.range airTemp.n).map
          fun m => (precip.val m i j / (airTemp.n : ℚ)) / p.smb_oggm_wat_density)
      from rfl]
    rw [sum_map_div (List.range airTemp.n)
      (fun m => precip.val m i j / (airTemp.n : ℚ)) p.smb_oggm_wat_density]
    rw [sum_map_div (List.range airTemp.n) (fun m => precip.val m i j) (airTemp.n : ℚ)]
  simp only [← h1, ← h2, ← h3, max_self, bIdx_self]
  simp only [hsum, habl0, mul_zero, sub_zero]
  have hn0 : (airTemp.n : ℚ) ≠ 0 := by
    have : (0 : ℚ) < (airTemp.n : ℚ) := by exact_mod_cast hn
    exact ne_of_gt this
  field_simp
  ring

/-- Counterexample for C4 as frozen: 12 months of air temperature −5 °C
(below the snow threshold 0), monthly precipitation 12000, both melt
factors zero; the computed cell satisfies
`smb * ice_density / wat_density = 12` while the claimed right-hand side
`sum(precipitation) / wat_density = 144` — the claim misses the division by
the 12-month axis length performed by `accumulation /=
accumulation.shape[0]`. -/
theorem smb_accumulation_only_counterexample :
    ((PaleoSmb.computeSmb ⟨1, 910, 1000, 0, 2, 0, 0, 0, 0⟩ ⟨12, 1, 1, fun _ _ _ => -5⟩
        ⟨12, 1, 1, fun _ _ _ => 12000⟩).getD ⟨0, 0, fun _ _ => 0⟩).val 0 0
      * ((910 : ℚ) / 1000)
      ≠ ((List.range 12).map fun k =>
          ((⟨12, 1, 1, fun _ _ _ => (12000 : ℚ)⟩ : Grid3).val k 0 0)).sum / 1000 := by
  norm_num [PaleoSmb.computeSmb, PaleoSmb.accumulationCell, PaleoSmb.posTempCell,
    PaleoSmb.monthOrder, PaleoSmb.hydroShiftIdx, PaleoSmb.snowLoop,
    bcDim, bIdx, List.range_succ, min_def, max_def]

/-- Witness for the amended C4 at a concrete two-month accumulation-only
input. -/
theorem smb_accumulation_only_div12_witness :
    ((PaleoSmb.computeSmb ⟨1, 910, 1000, 0, 2, 0, 0, 3/4, 3/5⟩ ⟨2, 1, 1, fun _ _ _ => -5⟩
        ⟨2, 1, 1, fun _ _ _ => 455⟩).getD ⟨0, 0, fun _ _ => 0⟩).val 0 0
      * ((⟨1, 910, 1000, 0, 2, 0, 0, 3/4, 3/5⟩ : PaleoSmb.Params).smb_oggm_ice_density
        / (⟨1, 910, 1000, 0, 2, 0, 0, 3/4, 3/5⟩ : PaleoSmb.Params).smb_oggm_wat_density)
      = ((List.range (⟨2, 1, 1, fun _ _ _ => (-5 : ℚ)⟩ : Grid3).n).map fun k =>
          ((⟨2, 1, 1, fun _ _ _ => (455 : ℚ)⟩ : Grid3).val k 0 0)).sum
        / (((⟨2, 1, 1, fun _ _ _ => (-5 : ℚ)⟩ : Grid3).n : ℚ)
          * (⟨1, 910, 1000, 0, 2, 0, 0, 3/4, 3/5⟩ : PaleoSmb.Params).smb_oggm_wat_density) :=
  smb_accumulation_only_div12 ⟨1, 910, 1000, 0, 2, 0, 0, 3/4, 3/5⟩
    ⟨2, 1, 1, fun _ _ _ => -5⟩ ⟨2, 1, 1, fun _ _ _ => 455⟩
    ((PaleoSmb.computeSmb ⟨1, 910, 1000, 0, 2, 0, 0, 3/4, 3/5⟩ ⟨2, 1, 1, fun _ _ _ => -5⟩
        ⟨2, 1, 1, fun _ _ _ => 455⟩).getD ⟨0, 0, fun _ _ => 0⟩) 0 0
    rfl ⟨rfl, rfl, rfl⟩ (fun k _ => by norm_num) (fun k _ => by norm_num) rfl rfl
    (by norm_num) (by norm_num) (by norm_num)

/-- C5: while the cadence gate is unmet, `paleo_smb.update` performs no
recomputation and returns the state entirely unchanged (previous `smb`,
`tlast_mb` marker, and — vacuously — the snow bookkeeping, which only lives
inside one pass); when the gate is met and the pass completes, `tlast_mb`
is set to the simulation time and `smb` holds the freshly computed (and,
when an ice mask is present, masked) field. -/
theorem smb_update_cadence_gate (p : PaleoSmb.Params) (s : PaleoSmb.State) :
    (s.t - s.tlast_mb < p.smb_paleo_update_freq → PaleoSmb.update p s = (s, none)) ∧
    (p.smb_paleo_update_freq ≤ s.t - s.tlast_mb → (PaleoSmb.update p s).2 = none →
      (PaleoSmb.update p s).1.tlast_mb = s.t ∧
      ∃ g, PaleoSmb.computeSmb p s.air_temp s.precipitation = some g ∧
        ((s.icemask = none ∧ (PaleoSmb.update p s).1.smb = g) ∨
         (∃ m, s.icemask = some m ∧
            PaleoSmb.maskSmb g m = some ((PaleoSmb.update p s).1.smb)))) := by
  constructor
  · intro hlt
    unfold PaleoSmb.update
    rw [if_neg (not_le.mpr hlt)]
  · intro hge hnone
    cases hcs : PaleoSmb.computeSmb p s.air_temp s.precipitation with
    | none =>
      have herr : (PaleoSmb.update p s).2 = some PaleoSmb.Err.shapeMismatch := by
        unfold PaleoSmb.update
        rw [if_pos hge]
        simp [hcs]
      rw [herr] at hnone
      exact absurd hnone (by simp)
    | some g =>
      cases hm : s.icemask with
      | none =>
        have hupd : PaleoSmb.update p s
            = ({ s with smb := g, tlast_mb := s.t }, none) := by
          unfold PaleoSmb.update
          rw [if_pos hge]
          simp only [hcs, hm]
        rw [hupd]
        exact ⟨rfl, g, rfl, Or.inl ⟨rfl, rfl⟩⟩
      | some m =>
        cases hmask : PaleoSmb.maskSmb g m with
        | none =>
          have herr : (PaleoSmb.update p s).2 = some PaleoSmb.Err.shapeMismatch := by
            unfold PaleoSmb.update
            rw [if_pos hge]
            simp [hcs, hm, hmask]
          rw [herr] at hnone
          exact absurd hnone (by simp)
        | some g2 =>
          have hupd : PaleoSmb.update p s
              = ({ s with smb := g2, tlast_mb := s.t }, none) := by
            unfold PaleoSmb.update
            rw [if_pos hge]
            simp only [hcs, hm, hmask]
          rw [hupd]
          exact ⟨rfl, g, rfl, Or.inr ⟨m, rfl, hmask⟩⟩

/-- Witness for C5: a concrete state with the gate unmet is returned
unchanged. -/
theorem smb_update_cadence_gate_witness :
    PaleoSmb.update ⟨1, 910, 1000, 0, 2, 0, 0, 0, 0⟩
      ⟨0, 1/2, ⟨1, 1, 1, fun _ _ _ => 0⟩, ⟨1, 1, 1, fun _ _ _ => 0⟩,
        ⟨1, 1, fun _ _ => 7⟩, none⟩
    = (⟨0, 1/2, ⟨1, 1, 1, fun _ _ _ => 0⟩, ⟨1, 1, 1, fun _ _ _ => 0⟩,
        ⟨1, 1, fun _ _ => 7⟩, none⟩, none) :=
  (smb_update_cadence_gate ⟨1, 910, 1000, 0, 2, 0, 0, 0, 0⟩
    ⟨0, 1/2, ⟨1, 1, 1, fun _ _ _ => 0⟩, ⟨1, 1, 1, fun _ _ _ => 0⟩,
      ⟨1, 1, fun _ _ => 7⟩, none⟩).1 (by norm_num)

/-- C6: when an ice mask is supplied (of the field's own dims — the
standard non-broadcast configuration) and the pass succeeds, the published
field is the masked one, and per cell the mask forces the sentinel −10
exactly when the computed balance is non-negative and the mask value is at
most 0.5; every other cell keeps its computed value. -/
theorem smb_icemask_sentinel (p : PaleoSmb.Params) (s : PaleoSmb.State)
    (m g g2 : Grid2)
    (hm : s.icemask = some m)
    (hg : PaleoSmb.computeSmb p s.air_temp s.precipitation = some g)
    (hmask : PaleoSmb.maskSmb g m = some g2)
    (hdims : g.ny = m.ny ∧ g.nx = m.nx)
    (hgate : p.smb_paleo_update_freq ≤ s.t - s.tlast_mb) :
    (PaleoSmb.update p s).1.smb = g2 ∧
    ∀ i j : ℕ, g2.val i j
      = if 0 ≤ g.val i j ∧ m.val i j ≤ 1 / 2 then -10 else g.val i j := by
  obtain ⟨hd1, hd2⟩ := hdims
  constructor
  · unfold PaleoSmb.update
    rw [if_pos hgate]
    simp only [hg, hm, hmask]
  · rw [PaleoSmb.maskSmb, if_pos ⟨Or.inl hd1, Or.inl hd2⟩] at hmask
    obtain rfl := Option.some.inj hmask
    intro i j
    simp only [← hd1, ← hd2, max_self, bIdx_self]
    by_cases hA : g.val i j < 0 ∨ (1 : ℚ) / 2 < m.val i j
    · have hB : ¬(0 ≤ g.val i j ∧ m.val i j ≤ 1 / 2) := by
        rcases hA with h | h
        · exact fun hb => absurd hb.1 (not_le.mpr h)
        · exact fun hb => absurd hb.2 (not_le.mpr h)
      rw [if_pos hA, if_neg hB]
    · push_neg at hA
      have hB : 0 ≤ g.val i j ∧ m.val i j ≤ 1 / 2 := ⟨hA.1, hA.2⟩
      rw [if_neg (by push_neg; exact hA), if_pos hB]

/-- Witness for C6: a one-month cell whose computed balance is exactly +0.5
under an ice mask of 0.0 is forced to the sentinel −10. -/
theorem smb_icemask_sentinel_witness :
    (PaleoSmb.update ⟨1, 910, 1000, 0, 2, 0, 0, 0, 0⟩
        ⟨0, -100, ⟨1, 1, 1, fun _ _ _ => -5⟩, ⟨1, 1, 1, fun _ _ _ => 455⟩,
          ⟨1, 1, fun _ _ => 0⟩, some ⟨1, 1, fun _ _ => 0⟩⟩).1.smb.val 0 0 = -10 ∧
    ((PaleoSmb.computeSmb ⟨1, 910, 1000, 0, 2, 0, 0, 0, 0⟩ ⟨1, 1, 1, fun _ _ _ => -5⟩
        ⟨1, 1, 1, fun _ _ _ => 455⟩).getD ⟨0, 0, fun _ _ => 0⟩).val 0 0 = 1 / 2 := by
  have hval : ((PaleoSmb.computeSmb ⟨1, 910, 1000, 0, 2, 0, 0, 0, 0⟩
      ⟨1, 1, 1, fun _ _ _ => -5⟩ ⟨1, 1, 1, fun _ _ _ => 455⟩).getD
        ⟨0, 0, fun _ _ => 0⟩).val 0 0 = 1 / 2 := by
    norm_num [PaleoSmb.computeSmb, PaleoSmb.accumulationCell, PaleoSmb.posTempCell,
      PaleoSmb.monthOrder, PaleoSmb.hydroShiftIdx, PaleoSmb.snowLoop,
      bcDim, bIdx, List.range_succ, min_def, max_def]
  refine ⟨?_, hval⟩
  obtain ⟨h1, h2⟩ := smb_icemask_sentinel ⟨1, 910, 1000, 0, 2, 0, 0, 0, 0⟩
    ⟨0, -100, ⟨1, 1, 1, fun _ _ _ => -5⟩, ⟨1, 1, 1, fun _ _ _ => 455⟩,
      ⟨1, 1, fun _ _ => 0⟩, some ⟨1, 1, fun _ _ => 0⟩⟩
    ⟨1, 1, fun _ _ => 0⟩
    ((PaleoSmb.computeSmb ⟨1, 910, 1000, 0, 2, 0, 0, 0, 0⟩ ⟨1, 1, 1, fun _ _ _ => -5⟩
        ⟨1, 1, 1, fun _ _ _ => 455⟩).getD ⟨0, 0, fun _ _ => 0⟩)
    ((PaleoSmb.maskSmb
      ((PaleoSmb.computeSmb ⟨1, 910, 1000, 0, 2, 0, 0, 0, 0⟩ ⟨1, 1, 1, fun _ _ _ => -5⟩
          ⟨1, 1, 1, fun _ _ _ => 455⟩).getD ⟨0, 0, fun _ _ => 0⟩)
      ⟨1, 1, fun _ _ => 0⟩).getD ⟨0, 0, fun _ _ => 0⟩)
    rfl rfl rfl ⟨rfl, rfl⟩ (by norm_num)
  rw [h1, h2 0 0, if_pos]
  constructor
  · rw [hval]; norm_num
  · norm_num

/-- Counterexample for C7 as frozen: a forcing whose first-axis length is 6
(not 12), with agreeing grid dims, is processed by `paleo_smb.update`
without any error — the code divides by `shape[0]` and loops over
`range(shape[0])` regardless of the month count, performs no shape
validation against a surface-elevation field (it never reads one), and
raises nothing. -/
theorem smb_no_month_count_check_counterexample :
    (PaleoSmb.update ⟨1, 910, 1000, 0, 2, 0, 0, 0, 0⟩
        ⟨0, -100, ⟨6, 1, 1, fun _ _ _ => -5⟩, ⟨6, 1, 1, fun _ _ _ => 100⟩,
          ⟨1, 1, fun _ _ => 0⟩, none⟩).2 = none ∧
    (⟨6, 1, 1, fun _ _ _ => (-5 : ℚ)⟩ : Grid3).n ≠ 12 ∧
    (⟨1, 910, 1000, 0, 2, 0, 0, 0, 0⟩ : PaleoSmb.Params).smb_paleo_update_freq
      ≤ (0 : ℚ) - (-100) := by
  refine ⟨?_, by norm_num, by norm_num⟩
  unfold PaleoSmb.update
  rw [if_pos (by norm_num)]
  simp [PaleoSmb.computeSmb, bcDim]

/-- C7 (amended): past the cadence gate, `paleo_smb.update` raises a shape
error exactly when the `air_temp` and `precipitation` tensors have
non-broadcastable dims on some axis, or a supplied ice mask's dims are
non-broadcastable with the computed field's (broadcast) spatial dims;
there is no first-axis-length-12 requirement and no check against a
surface-elevation field (the update never reads one), and every
broadcast-compatible input is processed without error. -/
theorem smb_update_error_iff_shape_mismatch (p : PaleoSmb.Params) (s : PaleoSmb.State)
    (hgate : p.smb_paleo_update_freq ≤ s.t - s.tlast_mb) :
    ((PaleoSmb.update p s).2 = none ↔
      ((bcDim s.air_temp.n s.precipitation.n ∧ bcDim s.air_temp.ny s.precipitation.ny ∧
          bcDim s.air_temp.nx s.precipitation.nx) ∧
        ∀ m, s.icemask = some m →
          (bcDim (max s.air_temp.ny s.precipitation.ny) m.ny ∧
           bcDim (max s.air_temp.nx s.precipitation.nx) m.nx))) := by
  cases hcs : PaleoSmb.computeSmb p s.air_temp s.precipitation with
  | none =>
    have hcond : ¬(bcDim s.air_temp.n s.precipitation.n ∧
        bcDim s.air_temp.ny s.precipitation.ny ∧
        bcDim s.air_temp.nx s.precipitation.nx) := by
      intro hc
      rw [PaleoSmb.computeSmb, if_pos hc] at hcs
      exact absurd hcs (by simp)
    have hupd : (PaleoSmb.update p s).2 = some PaleoSmb.Err.shapeMismatch := by
      unfold PaleoSmb.update
      rw [if_pos hgate]
      simp only [hcs]
    rw [hupd]
    constructor
    · intro h
      exact absurd h (by simp)
    · intro h
      exact absurd h.1 hcond
  | some g =>
    have hcond : bcDim s.air_temp.n s.precipitation.n ∧
        bcDim s.air_temp.ny s.precipitation.ny ∧
        bcDim s.air_temp.nx s.precipitation.nx := by
      by_contra hc
      rw [PaleoSmb.computeSmb, if_neg hc] at hcs
      exact absurd hcs (by simp)
    have hgny : g.ny = max s.air_temp.ny s.precipitation.ny ∧
        g.nx = max s.air_temp.nx s.precipitation.nx := by
      rw [PaleoSmb.computeSmb, if_pos hcond] at hcs
      obtain rfl := Option.some.inj hcs
      exact ⟨rfl, rfl⟩
    cases hm : s.icemask with
    | none =>
      have hupd : (PaleoSmb.update p s).2 = none := by
        unfold PaleoSmb.update
        rw [if_pos hgate]
        simp only [hcs, hm]
      rw [hupd]
      simp only [true_iff]
      exact ⟨hcond, fun m hmm => absurd hmm (by simp)⟩
    | some m =>
      by_cases hmcond : bcDim (max s.air_temp.ny s.precipitation.ny) m.ny ∧
          bcDim (max s.air_temp.nx s.precipitation.nx) m.nx
      · obtain ⟨g2, hmask⟩ : ∃ g2, PaleoSmb.maskSmb g m = some g2 := by
          unfold PaleoSmb.maskSmb
          rw [if_pos ⟨by rw [hgny.1]; exact hmcond.1, by rw [hgny.2]; exact hmcond.2⟩]
          exact ⟨_, rfl⟩
        have hupd : (PaleoSmb.update p s).2 = none := by
          unfold PaleoSmb.update
          rw [if_pos hgate]
          simp only [hcs, hm, hmask]
        rw [hupd]
        simp only [true_iff]
        refine ⟨hcond, fun m2 hm2 => ?_⟩
        obtain rfl := Option.some.inj hm2
        exact hmcond
      · have hmask : PaleoSmb.maskSmb g m = none := by
          unfold PaleoSmb.maskSmb
          rw [if_neg]
          intro hc
          exact hmcond ⟨by rw [← hgny.1]; exact hc.1, by rw [← hgny.2]; exact hc.2⟩
        have hupd : (PaleoSmb.update p s).2 = some PaleoSmb.Err.shapeMismatch := by
          unfold PaleoSmb.update
          rw [if_pos hgate]
          simp only [hcs, hm, hmask]
        rw [hupd]
        constructor
        · intro h
          exact absurd h (by simp)
        · intro h
          exact absurd (h.2 m rfl) hmcond

/-- Witness for the amended C7: on a concrete gate-met state with
broadcast-compatible dims and no mask, the characterization instantiates
and yields a successful update. -/
theorem smb_update_error_iff_shape_mismatch_witness :
    (PaleoSmb.update ⟨1, 910, 1000, 0, 2, 0, 0, 0, 0⟩
        ⟨0, -100, ⟨6, 2, 3, fun _ _ _ => -5⟩, ⟨6, 2, 3, fun _ _ _ => 100⟩,
          ⟨2, 3, fun _ _ => 0⟩, none⟩).2 = none ↔
      ((bcDim (⟨6, 2, 3, fun _ _ _ => (-5 : ℚ)⟩ : Grid3).n
          (⟨6, 2, 3, fun _ _ _ => (100 : ℚ)⟩ : Grid3).n ∧
        bcDim (⟨6, 2, 3, fun _ _ _ => (-5 : ℚ)⟩ : Grid3).ny
          (⟨6, 2, 3, fun _ _ _ => (100 : ℚ)⟩ : Grid3).ny ∧
        bcDim (⟨6, 2, 3, fun _ _ _ => (-5 : ℚ)⟩ : Grid3).nx
          (⟨6, 2, 3, fun _ _ _ => (100 : ℚ)⟩ : Grid3).nx) ∧
        ∀ m, (none : Option Grid2) = some m
          → (bcDim (max (⟨6, 2, 3, fun _ _ _ => (-5 : ℚ)⟩ : Grid3).ny
                (⟨6, 2, 3, fun _ _ _ => (100 : ℚ)⟩ : Grid3).ny) m.ny ∧
             bcDim (max (⟨6, 2, 3, fun _ _ _ => (-5 : ℚ)⟩ : Grid3).nx
                (⟨6, 2, 3, fun _ _ _ => (100 : ℚ)⟩ : Grid3).nx) m.nx)) :=
  smb_update_error_iff_shape_mismatch ⟨1, 910, 1000, 0, 2, 0, 0, 0, 0⟩
    ⟨0, -100, ⟨6, 2, 3, fun _ _ _ => -5⟩, ⟨6, 2, 3, fun _ _ _ => 100⟩,
      ⟨2, 3, fun _ _ => 0⟩, none⟩ (by norm_num)

/-- C8 (amended): a failure raised before the first field assignment leaves
the component state entirely unchanged — in the mass-balance update this is
the `air_temp`/`precipitation` dims mismatch, detected before `state.smb`
is assigned; and for both components any failing call leaves the
last-update marker (`tlast_mb` / `tlast_clim_oggm`) unchanged.  Failures
raised after a field assignment (ice-mask dims mismatch after `smb` is
assigned; lapse-correction dims mismatch after `precipitation` and
`air_temp` are assigned) do overwrite those fields — see the
counterexample. -/
theorem update_failure_marker_atomicity :
    (∀ (p : PaleoSmb.Params) (s : PaleoSmb.State),
        PaleoSmb.computeSmb p s.air_temp s.precipitation = none →
        PaleoSmb.update p s = (s, some PaleoSmb.Err.shapeMismatch)
          ∨ PaleoSmb.update p s = (s, none)) ∧
    (∀ (p : PaleoSmb.Params) (s s' : PaleoSmb.State) (e : PaleoSmb.Err),
        PaleoSmb.update p s = (s', some e) → s'.tlast_mb = s.tlast_mb) ∧
    (∀ (p : GlacialIndexClim.Params) (s s' : GlacialIndexClim.State)
        (e : GlacialIndexClim.Err),
        GlacialIndexClim.update p s = (s', some e)
          → s'.tlast_clim_oggm = s.tlast_clim_oggm) := by
  refine ⟨?_, ?_, ?_⟩
  · intro p s hcs
    by_cases hgate : p.smb_paleo_update_freq ≤ s.t - s.tlast_mb
    · left
      unfold PaleoSmb.update
      rw [if_pos hgate]
      simp only [hcs]
    · right
      unfold PaleoSmb.update
      rw [if_neg hgate]
  · intro p s s' e h
    unfold PaleoSmb.update at h
    by_cases hgate : p.smb_paleo_update_freq ≤ s.t - s.tlast_mb
    · rw [if_pos hgate] at h
      cases hcs : PaleoSmb.computeSmb p s.air_temp s.precipitation with
      | none =>
        simp only [hcs] at h
        obtain ⟨h1, _⟩ := Prod.mk.injEq .. ▸ h
        rw [← h1]
      | some g =>
        simp only [hcs] at h
        cases hm : s.icemask with
        | none =>
          simp only [hm] at h
          obtain ⟨_, h2⟩ := Prod.mk.injEq .. ▸ h
          exact absurd h2 (by simp)
        | some m =>
          simp only [hm] at h
          cases hmask : PaleoSmb.maskSmb g m with
          | none =>
            simp only [hmask] at h
            obtain ⟨h1, _⟩ := Prod.mk.injEq .. ▸ h
            rw [← h1]
          | some g2 =>
            simp only [hmask] at h
            obtain ⟨_, h2⟩ := Prod.mk.injEq .. ▸ h
            exact absurd h2 (by simp)
    · rw [if_neg hgate] at h
      obtain ⟨_, h2⟩ := Prod.mk.injEq .. ▸ h
      exact absurd h2 (by simp)
  · intro p s s' e h
    unfold GlacialIndexClim.update at h
    by_cases hgate : p.paleo_clim_update_freq ≤ s.t - s.tlast_clim_oggm
    · rw [if_pos hgate] at h
      by_cases hsh : bcDim s.usurf.ny s.observed_elevation.ny ∧
          bcDim s.usurf.nx s.observed_elevation.nx ∧
          bcDim s.temp_obs.n 12 ∧
          bcDim s.temp_obs.ny (max s.usurf.ny s.observed_elevation.ny) ∧
          bcDim s.temp_obs.nx (max s.usurf.nx s.observed_elevation.nx)
      · rw [if_pos hsh] at h
        obtain ⟨_, h2⟩ := Prod.mk.injEq .. ▸ h
        exact absurd h2 (by simp)
      · rw [if_neg hsh] at h
        obtain ⟨h1, _⟩ := Prod.mk.injEq .. ▸ h
        rw [← h1]
    · rw [if_neg hgate] at h
      obtain ⟨_, h2⟩ := Prod.mk.injEq .. ▸ h
      exact absurd h2 (by simp)

/-- Counterexample for C8 as frozen: with the gate met and an ice mask of
non-broadcastable dims (3x3 against the 2x2 balance field), the failing
update has already overwritten `smb` with the freshly computed unmasked
field (99 becomes 1/2) while `tlast_mb` keeps its old value — prior state
is partially mutated on failure. -/
theorem update_failure_partial_commit_counterexample :
    (PaleoSmb.update ⟨1, 910, 1000, 0, 2, 0, 0, 0, 0⟩
        ⟨0, -100, ⟨1, 2, 2, fun _ _ _ => -5⟩, ⟨1, 2, 2, fun _ _ _ => 455⟩,
          ⟨2, 2, fun _ _ => 99⟩, some ⟨3, 3, fun _ _ => 0⟩⟩).2
      = some PaleoSmb.Err.shapeMismatch ∧
    (PaleoSmb.update ⟨1, 910, 1000, 0, 2, 0, 0, 0, 0⟩
        ⟨0, -100, ⟨1, 2, 2, fun _ _ _ => -5⟩, ⟨1, 2, 2, fun _ _ _ => 455⟩,
          ⟨2, 2, fun _ _ => 99⟩, some ⟨3, 3, fun _ _ => 0⟩⟩).1.smb.val 0 0 ≠ 99 ∧
    (PaleoSmb.update ⟨1, 910, 1000, 0, 2, 0, 0, 0, 0⟩
        ⟨0, -100, ⟨1, 2, 2, fun _ _ _ => -5⟩, ⟨1, 2, 2, fun _ _ _ => 455⟩,
          ⟨2, 2, fun _ _ => 99⟩, some ⟨3, 3, fun _ _ => 0⟩⟩).1.tlast_mb = -100 ∧
    (⟨1, 910, 1000, 0, 2, 0, 0, 0, 0⟩ : PaleoSmb.Params).smb_paleo_update_freq
      ≤ (0 : ℚ) - (-100) := by
  have hupd : PaleoSmb.update ⟨1, 910, 1000, 0, 2, 0, 0, 0, 0⟩
      ⟨0, -100, ⟨1, 2, 2, fun _ _ _ => -5⟩, ⟨1, 2, 2, fun _ _ _ => 455⟩,
        ⟨2, 2, fun _ _ => 99⟩, some ⟨3, 3, fun _ _ => 0⟩⟩
      = ({ t := 0, tlast_mb := -100, air_temp := ⟨1, 2, 2, fun _ _ _ => -5⟩,
           precipitation := ⟨1, 2, 2, fun _ _ _ => 455⟩,
           smb := (PaleoSmb.computeSmb ⟨1, 910, 1000, 0, 2, 0, 0, 0, 0⟩
             ⟨1, 2, 2, fun _ _ _ => -5⟩ ⟨1, 2, 2, fun _ _ _ => 455⟩).getD
               ⟨0, 0, fun _ _ => 0⟩,
           icemask := some ⟨3, 3, fun _ _ => 0⟩ },
         some PaleoSmb.Err.shapeMismatch) := by
    unfold PaleoSmb.update
    rw [if_pos (by norm_num)]
    rfl
  refine ⟨by rw [hupd], ?_, by rw [hupd], by norm_num⟩
  rw [hupd]
  have hval : ((PaleoSmb.computeSmb ⟨1, 910, 1000, 0, 2, 0, 0, 0, 0⟩
      ⟨1, 2, 2, fun _ _ _ => -5⟩ ⟨1, 2, 2, fun _ _ _ => 455⟩).getD
        ⟨0, 0, fun _ _ => 0⟩).val 0 0 = 1 / 2 := by
    norm_num [PaleoSmb.computeSmb, PaleoSmb.accumulationCell, PaleoSmb.posTempCell,
      PaleoSmb.monthOrder, PaleoSmb.hydroShiftIdx, PaleoSmb.snowLoop,
      bcDim, bIdx, List.range_succ, min_def, max_def]
  show ((PaleoSmb.computeSmb ⟨1, 910, 1000, 0, 2, 0, 0, 0, 0⟩
      ⟨1, 2, 2, fun _ _ _ => -5⟩ ⟨1, 2, 2, fun _ _ _ => 455⟩).getD
        ⟨0, 0, fun _ _ => 0⟩).val 0 0 ≠ 99
  rw [hval]
  norm_num

/-- Witness for the amended C8: a pre-assignment failure (month-count
mismatch between the two forcing tensors) leaves the concrete state
entirely unchanged. -/
theorem update_failure_marker_atomicity_witness :
    PaleoSmb.update ⟨1, 910, 1000, 0, 2, 0, 0, 0, 0⟩
      ⟨0, -100, ⟨6, 1, 1, fun _ _ _ => -5⟩, ⟨5, 1, 1, fun _ _ _ => 100⟩,
        ⟨1, 1, fun _ _ => 99⟩, none⟩
      = (⟨0, -100, ⟨6, 1, 1, fun _ _ _ => -5⟩, ⟨5, 1, 1, fun _ _ _ => 100⟩,
          ⟨1, 1, fun _ _ => 99⟩, none⟩, some PaleoSmb.Err.shapeMismatch) ∨
    PaleoSmb.update ⟨1, 910, 1000, 0, 2, 0, 0, 0, 0⟩
      ⟨0, -100, ⟨6, 1, 1, fun _ _ _ => -5⟩, ⟨5, 1, 1, fun _ _ _ => 100⟩,
        ⟨1, 1, fun _ _ => 99⟩, none⟩
      = (⟨0, -100, ⟨6, 1, 1, fun _ _ _ => -5⟩, ⟨5, 1, 1, fun _ _ _ => 100⟩,
          ⟨1, 1, fun _ _ => 99⟩, none⟩, none) :=
  update_failure_marker_atomicity.1 ⟨1, 910, 1000, 0, 2, 0, 0, 0, 0⟩
    ⟨0, -100, ⟨6, 1, 1, fun _ _ _ => -5⟩, ⟨5, 1, 1, fun _ _ _ => 100⟩,
      ⟨1, 1, fun _ _ => 99⟩, none⟩
    (by rw [PaleoSmb.computeSmb, if_neg (by simp [bcDim])])

namespace PaleoClim

/-- Parameters read by `paleo_clim.update`. -/
structure Params where
  paleo_clim_update_freq : ℚ
  temp_default_gradient : ℚ

/-- Numpy slicing `g[:, :ty, :tx]`: truncation can only shrink an axis, so
the resulting spatial dims are the minima of the original and requested
dims.  Cell values at kept indices are unchanged. -/
def cropGrid3 (g : Grid3) (ty tx : ℕ) : Grid3 :=
  ⟨g.n, min g.ny ty, min g.nx tx, g.val⟩

/-- The anomaly-alignment block of `paleo_clim.initialize` (lines 99–108):
when the spatial dims of `anomaly_temperature` differ from the observed
grid, both anomaly grids are sliced with `[:, :target_y, :target_x]`. -/
def alignAnomaly (temp anomT anomP : Grid3) : Grid3 × Grid3 :=
  if anomT.ny = temp.ny ∧ anomT.nx = temp.nx then (anomT, anomP)
  else (cropGrid3 anomT temp.ny temp.nx, cropGrid3 anomP temp.ny temp.nx)

/-- The component state mutated by `paleo_clim.update`; `prec` is the
annual (month-summed) 2-D observed precipitation, the anomaly grids are
those installed by `initialize` (after `alignAnomaly`). -/
structure State where
  t : ℚ
  tlast_clim_oggm : ℚ
  temp : Grid3
  prec : Grid2
  anomaly_temperature : Grid3
  anomaly_precipitation : Grid3
  usurf : Grid2
  giNodes : List (ℚ × ℚ)
  air_temp : Grid3
  precipitation : Grid3

/-- Failure of an eager tensor operation on mismatched operand shapes. -/
inductive Err where
  | shapeMismatch
deriving DecidableEq

/-- `paleo_clim.update` with the in-place mutations made explicit in
program order: past the gate, `state.precipitation = prec + (1 − G) *
anomaly_precipitation` is assigned first (the 2-D `prec` aligns with the
anomaly's trailing spatial axes and broadcasts over the month axis), then
`state.air_temp = temp + (1 − G) * anomaly_temperature` (a full 3-D
broadcast, so e.g. a single-timestep anomaly broadcasts), then the lapse
term `temp_default_gradient * usurf` is tiled 12-fold and added, and
`tlast_clim_oggm` is assigned last.  Each step fails exactly on
non-broadcastable dims, leaving the previously assigned fields at their
new values. -/
def update (p : Params) (s : State) : State × Option Err :=
  if p.paleo_clim_update_freq ≤ s.t - s.tlast_clim_oggm then
    let G := interpPts s.giNodes s.t
    if bcDim s.prec.ny s.anomaly_precipitation.ny ∧
        bcDim s.prec.nx s.anomaly_precipitation.nx then
      let prec1 : Grid3 := ⟨s.anomaly_precipitation.n,
        max s.prec.ny s.anomaly_precipitation.ny,
        max s.prec.nx s.anomaly_precipitation.nx,
        fun k i j =>
          s.prec.val (bIdx s.prec.ny (max s.prec.ny s.anomaly_precipitation.ny) i)
            (bIdx s.prec.nx (max s.prec.nx s.anomaly_precipitation.nx) j)
          + (1 - G) * s.anomaly_precipitation.val k
              (bIdx s.anomaly_precipitation.ny
                (max s.prec.ny s.anomaly_precipitation.ny) i)
              (bIdx s.anomaly_precipitation.nx
                (max s.prec.nx s.anomaly_precipitation.nx) j)⟩
      if bcDim s.temp.n s.anomaly_temperature.n ∧
          bcDim s.temp.ny s.anomaly_temperature.ny ∧
          bcDim s.temp.nx s.anomaly_temperature.nx then
        let temp1 : Grid3 := ⟨max s.temp.n s.anomaly_temperature.n,
          max s.temp.ny s.anomaly_temperature.ny,
          max s.temp.nx s.anomaly_temperature.nx,
          fun k i j =>
            s.temp.val (bIdx s.temp.n (max s.temp.n s.anomaly_temperature.n) k)
              (bIdx s.temp.ny (max s.temp.ny s.anomaly_temperature.ny) i)
              (bIdx s.temp.nx (max s.temp.nx s.anomaly_temperature.nx) j)
            + (1 - G) * s.anomaly_temperature.val
                (bIdx s.anomaly_temperature.n (max s.temp.n s.anomaly_temperature.n) k)
                (bIdx s.anomaly_temperature.ny (max s.temp.ny s.anomaly_temperature.ny) i)
                (bIdx s.anomaly_temperature.nx (max s.temp.nx s.anomaly_temperature.nx) j)⟩
        if bcDim (max s.temp.n s.anomaly_temperature.n) 12 ∧
            bcDim (max s.temp.ny s.anomaly_temperature.ny) s.usurf.ny ∧
            bcDim (max s.temp.nx s.anomaly_temperature.nx) s.usurf.nx then
          let temp2 : Grid3 := ⟨max (max s.temp.n s.anomaly_temperature.n) 12,
            max (max s.temp.ny s.anomaly_temperature.ny) s.usurf.ny,
            max (max s.temp.nx s.anomaly_temperature.nx) s.usurf.nx,
            fun k i j =>
              temp1.val
                (bIdx (max s.temp.n s.anomaly_temperature.n)
                  (max (max s.temp.n s.anomaly_temperature.n) 12) k)
                (bIdx (max s.temp.ny s.anomaly_temperature.ny)
                  (max (max s.temp.ny s.anomaly_temperature.ny) s.usurf.ny) i)
                (bIdx (max s.temp.nx s.anomaly_temperature.nx)
                  (max (max s.temp.nx s.anomaly_temperature.nx) s.usurf.nx) j)
              + p.temp_default_gradient
                * s.usurf.val
                    (bIdx s.usurf.ny
                      (max (max s.temp.ny s.anomaly_temperature.ny) s.usurf.ny) i)
                    (bIdx s.usurf.nx
                      (max (max s.temp.nx s.anomaly_temperature.nx) s.usurf.nx) j)⟩
          ({ s with precipitation := prec1, air_temp := temp2, tlast_clim_oggm := s.t },
            none)
        else ({ s with precipitation := prec1, air_temp := temp1 }, some Err.shapeMismatch)
      else ({ s with precipitation := prec1 }, some Err.shapeMismatch)
    else (s, some Err.shapeMismatch)
  else (s, none)

end PaleoClim

/-- Counterexample for C9 as frozen: an anomaly grid one row SMALLER than
the observed grid also has a differing spatial shape, but numpy slicing can
only truncate, so the "cropped" grid keeps its own smaller shape (2 rows,
not the observed 3), and the subsequent `update` fails on the first blend
(2 and 3 are non-broadcastable dims) instead of producing an `air_temp` of
the observed shape. -/
theorem anomaly_crop_smaller_counterexample :
    ¬((⟨12, 2, 3, fun _ _ _ => (0 : ℚ)⟩ : Grid3).ny
        = (⟨12, 3, 3, fun _ _ _ => (-5 : ℚ)⟩ : Grid3).ny ∧
      (⟨12, 2, 3, fun _ _ _ => (0 : ℚ)⟩ : Grid3).nx
        = (⟨12, 3, 3, fun _ _ _ => (-5 : ℚ)⟩ : Grid3).nx) ∧
    (PaleoClim.alignAnomaly ⟨12, 3, 3, fun _ _ _ => -5⟩ ⟨12, 2, 3, fun _ _ _ => 0⟩
        ⟨12, 2, 3, fun _ _ _ => 0⟩).1.ny
      ≠ (⟨12, 3, 3, fun _ _ _ => (-5 : ℚ)⟩ : Grid3).ny ∧
    (PaleoClim.update ⟨1, -13/2000⟩
        ⟨0, -100, ⟨12, 3, 3, fun _ _ _ => -5⟩, ⟨3, 3, fun _ _ => 50⟩,
          (PaleoClim.alignAnomaly ⟨12, 3, 3, fun _ _ _ => -5⟩ ⟨12, 2, 3, fun _ _ _ => 0⟩
            ⟨12, 2, 3, fun _ _ _ => 0⟩).1,
          (PaleoClim.alignAnomaly ⟨12, 3, 3, fun _ _ _ => -5⟩ ⟨12, 2, 3, fun _ _ _ => 0⟩
            ⟨12, 2, 3, fun _ _ _ => 0⟩).2,
          ⟨3, 3, fun _ _ => 0⟩, [], ⟨12, 3, 3, fun _ _ _ => 0⟩,
          ⟨12, 3, 3, fun _ _ _ => 0⟩⟩).2 = some PaleoClim.Err.shapeMismatch := by
  refine ⟨by decide, by decide, ?_⟩
  unfold PaleoClim.update
  rw [if_pos (by norm_num), if_neg (by decide)]

/-- C9 (amended): for an anomaly pair whose spatial dims differ from the
observed grid but are at least as large in both axes (the claim's
"two rows larger" case), `initialize` silently crops both anomaly grids to
exactly the observed `(ny, nx)` (cell values at kept indices unchanged),
and the subsequent `update` succeeds, producing an `air_temp` of shape
`(12, ny, nx)` — the observed spatial shape.  Anomaly grids smaller than
the observed grid are NOT brought to the observed shape (see the
counterexample). -/
theorem anomaly_crop_to_observed_shape
    (p : PaleoClim.Params) (s : PaleoClim.State) (aT aP : Grid3)
    (hdiff : ¬(aT.ny = s.temp.ny ∧ aT.nx = s.temp.nx))
    (hty : s.temp.ny ≤ aT.ny) (htx : s.temp.nx ≤ aT.nx)
    (hpy : s.temp.ny ≤ aP.ny) (hpx : s.temp.nx ≤ aP.nx)
    (hAT : s.anomaly_temperature = (PaleoClim.alignAnomaly s.temp aT aP).1)
    (hAP : s.anomaly_precipitation = (PaleoClim.alignAnomaly s.temp aT aP).2)
    (hATn : aT.n = s.temp.n ∨ aT.n = 1)
    (hn12 : s.temp.n = 12)
    (hprecy : s.prec.ny = s.temp.ny) (hprecx : s.prec.nx = s.temp.nx)
    (husy : s.usurf.ny = s.temp.ny) (husx : s.usurf.nx = s.temp.nx)
    (hgate : p.paleo_clim_update_freq ≤ s.t - s.tlast_clim_oggm) :
    ((PaleoClim.alignAnomaly s.temp aT aP).1.ny = s.temp.ny ∧
     (PaleoClim.alignAnomaly s.temp aT aP).1.nx = s.temp.nx ∧
     (PaleoClim.alignAnomaly s.temp aT aP).2.ny = s.temp.ny ∧
     (PaleoClim.alignAnomaly s.temp aT aP).2.nx = s.temp.nx) ∧
    (∀ k i j : ℕ, (PaleoClim.alignAnomaly s.temp aT aP).1.val k i j = aT.val k i j) ∧
    (PaleoClim.update p s).2 = none ∧
    (PaleoClim.update p s).1.air_temp.n = 12 ∧
    (PaleoClim.update p s).1.air_temp.ny = s.temp.ny ∧
    (PaleoClim.update p s).1.air_temp.nx = s.temp.nx := by
  have halign : PaleoClim.alignAnomaly s.temp aT aP
      = (PaleoClim.cropGrid3 aT s.temp.ny s.temp.nx,
         PaleoClim.cropGrid3 aP s.temp.ny s.temp.nx) := by
    unfold PaleoClim.alignAnomaly
    rw [if_neg hdiff]
  have hshape : (PaleoClim.alignAnomaly s.temp aT aP).1.ny = s.temp.ny ∧
      (PaleoClim.alignAnomaly s.temp aT aP).1.nx = s.temp.nx ∧
      (PaleoClim.alignAnomaly s.temp aT aP).2.ny = s.temp.ny ∧
      (PaleoClim.alignAnomaly s.temp aT aP).2.nx = s.temp.nx := by
    rw [halign]
    exact ⟨min_eq_right hty, min_eq_right htx, min_eq_right hpy, min_eq_right hpx⟩
  have hvals : ∀ k i j : ℕ,
      (PaleoClim.alignAnomaly s.temp aT aP).1.val k i j = aT.val k i j := by
    intro k i j
    rw [halign]
    rfl
  have hTn : s.anomaly_temperature.n = aT.n := by
    rw [hAT, halign]
    rfl
  have hTy : s.anomaly_temperature.ny = s.temp.ny := by
    rw [hAT, halign]
    exact min_eq_right hty
  have hTx : s.anomaly_temperature.nx = s.temp.nx := by
    rw [hAT, halign]
    exact min_eq_right htx
  have hPy : s.anomaly_precipitation.ny = s.temp.ny := by
    rw [hAP, halign]
    exact min_eq_right hpy
  have hPx : s.anomaly_precipitation.nx = s.temp.nx := by
    rw [hAP, halign]
    exact min_eq_right hpx
  have h1 : bcDim s.prec.ny s.anomaly_precipitation.ny ∧
      bcDim s.prec.nx s.anomaly_precipitation.nx :=
    ⟨Or.inl (by rw [hprecy, hPy]), Or.inl (by rw [hprecx, hPx])⟩
  have h2 : bcDim s.temp.n s.anomaly_temperature.n ∧
      bcDim s.temp.ny s.anomaly_temperature.ny ∧
      bcDim s.temp.nx s.anomaly_temperature.nx := by
    refine ⟨?_, Or.inl hTy.symm, Or.inl hTx.symm⟩
    rcases hATn with h | h
    · exact Or.inl (by rw [hTn, h])
    · exact Or.inr (Or.inr (hTn.trans h))
  have hMn : max s.temp.n s.anomaly_temperature.n = 12 := by
    rw [hTn]
    rcases hATn with h | h
    · rw [h, hn12, max_self]
    · rw [h, hn12]
      decide
  have hMy : max s.temp.ny s.anomaly_temperature.ny = s.temp.ny := by
    rw [hTy, max_self]
  have hMx : max s.temp.nx s.anomaly_temperature.nx = s.temp.nx := by
    rw [hTx, max_self]
  have h3 : bcDim (max s.temp.n s.anomaly_temperature.n) 12 ∧
      bcDim (max s.temp.ny s.anomaly_temperature.ny) s.usurf.ny ∧
      bcDim (max s.temp.nx s.anomaly_temperature.nx) s.usurf.nx :=
    ⟨Or.inl hMn, Or.inl (by rw [hMy, husy]), Or.inl (by rw [hMx, husx])⟩
  have hupd2 : (PaleoClim.update p s).2 = none ∧
      (PaleoClim.update p s).1.air_temp.n = 12 ∧
      (PaleoClim.update p s).1.air_temp.ny = s.temp.ny ∧
      (PaleoClim.update p s).1.air_temp.nx = s.temp.nx := by
    unfold PaleoClim.update
    rw [if_pos hgate, if_pos h1, if_pos h2, if_pos h3]
    refine ⟨rfl, ?_, ?_, ?_⟩
    · show max (max s.temp.n s.anomaly_temperature.n) 12 = 12
      rw [hMn, max_self]
    · show max (max s.temp.ny s.anomaly_temperature.ny) s.usurf.ny = s.temp.ny
      rw [hMy, husy, max_self]
    · show max (max s.temp.nx s.anomaly_temperature.nx) s.usurf.nx = s.temp.nx
      rw [hMx, husx, max_self]
  exact ⟨hshape, hvals, hupd2⟩

/-- Witness for the amended C9: a 5×4 anomaly over a 3×3 observed grid is
cropped to 3×3 and the update then succeeds with a (12, 3, 3) `air_temp`. -/
theorem anomaly_crop_to_observed_shape_witness :
    ((PaleoClim.alignAnomaly ⟨12, 3, 3, fun _ _ _ => -5⟩ ⟨12, 5, 4, fun _ _ _ => 2⟩
        ⟨12, 5, 4, fun _ _ _ => 7⟩).1.ny
      = (⟨12, 3, 3, fun _ _ _ => (-5 : ℚ)⟩ : Grid3).ny ∧
     (PaleoClim.alignAnomaly ⟨12, 3, 3, fun _ _ _ => -5⟩ ⟨12, 5, 4, fun _ _ _ => 2⟩
        ⟨12, 5, 4, fun _ _ _ => 7⟩).1.nx
      = (⟨12, 3, 3, fun _ _ _ => (-5 : ℚ)⟩ : Grid3).nx ∧
     (PaleoClim.alignAnomaly ⟨12, 3, 3, fun _ _ _ => -5⟩ ⟨12, 5, 4, fun _ _ _ => 2⟩
        ⟨12, 5, 4, fun _ _ _ => 7⟩).2.ny
      = (⟨12, 3, 3, fun _ _ _ => (-5 : ℚ)⟩ : Grid3).ny ∧
     (PaleoClim.alignAnomaly ⟨12, 3, 3, fun _ _ _ => -5⟩ ⟨12, 5, 4, fun _ _ _ => 2⟩
        ⟨12, 5, 4, fun _ _ _ => 7⟩).2.nx
      = (⟨12, 3, 3, fun _ _ _ => (-5 : ℚ)⟩ : Grid3).nx) ∧
    (PaleoClim.alignAnomaly ⟨12, 3, 3, fun _ _ _ => -5⟩ ⟨12, 5, 4, fun _ _ _ => 2⟩
        ⟨12, 5, 4, fun _ _ _ => 7⟩).1.val 0 0 0
      = (⟨12, 5, 4, fun _ _ _ => (2 : ℚ)⟩ : Grid3).val 0 0 0 ∧
    (PaleoClim.update ⟨1, -13/2000⟩
        ⟨0, -100, ⟨12, 3, 3, fun _ _ _ => -5⟩, ⟨3, 3, fun _ _ => 50⟩,
          (PaleoClim.alignAnomaly ⟨12, 3, 3, fun _ _ _ => -5⟩ ⟨12, 5, 4, fun _ _ _ => 2⟩
            ⟨12, 5, 4, fun _ _ _ => 7⟩).1,
          (PaleoClim.alignAnomaly ⟨12, 3, 3, fun _ _ _ => -5⟩ ⟨12, 5, 4, fun _ _ _ => 2⟩
            ⟨12, 5, 4, fun _ _ _ => 7⟩).2,
          ⟨3, 3, fun _ _ => 0⟩, [], ⟨12, 3, 3, fun _ _ _ => 0⟩,
          ⟨12, 3, 3, fun _ _ _ => 0⟩⟩).2 = none ∧
    (PaleoClim.update ⟨1, -13/2000⟩
        ⟨0, -100, ⟨12, 3, 3, fun _ _ _ => -5⟩, ⟨3, 3, fun _ _ => 50⟩,
          (PaleoClim.alignAnomaly ⟨12, 3, 3, fun _ _ _ => -5⟩ ⟨12, 5, 4, fun _ _ _ => 2⟩
            ⟨12, 5, 4, fun _ _ _ => 7⟩).1,
          (PaleoClim.alignAnomaly ⟨12, 3, 3, fun _ _ _ => -5⟩ ⟨12, 5, 4, fun _ _ _ => 2⟩
            ⟨12, 5, 4, fun _ _ _ => 7⟩).2,
          ⟨3, 3, fun _ _ => 0⟩, [], ⟨12, 3, 3, fun _ _ _ => 0⟩,
          ⟨12, 3, 3, fun _ _ _ => 0⟩⟩).1.air_temp.n = 12 ∧
    (PaleoClim.update ⟨1, -13/2000⟩
        ⟨0, -100, ⟨12, 3, 3, fun _ _ _ => -5⟩, ⟨3, 3, fun _ _ => 50⟩,
          (PaleoClim.alignAnomaly ⟨12, 3, 3, fun _ _ _ => -5⟩ ⟨12, 5, 4, fun _ _ _ => 2⟩
            ⟨12, 5, 4, fun _ _ _ => 7⟩).1,
          (PaleoClim.alignAnomaly ⟨12, 3, 3, fun _ _ _ => -5⟩ ⟨12, 5, 4, fun _ _ _ => 2⟩
            ⟨12, 5, 4, fun _ _ _ => 7⟩).2,
          ⟨3, 3, fun _ _ => 0⟩, [], ⟨12, 3, 3, fun _ _ _ => 0⟩,
          ⟨12, 3, 3, fun _ _ _ => 0⟩⟩).1.air_temp.ny
      = (⟨12, 3, 3, fun _ _ _ => (-5 : ℚ)⟩ : Grid3).ny ∧
    (PaleoClim.update ⟨1, -13/2000⟩
        ⟨0, -100, ⟨12, 3, 3, fun _ _ _ => -5⟩, ⟨3, 3, fun _ _ => 50⟩,
          (PaleoClim.alignAnomaly ⟨12, 3, 3, fun _ _ _ => -5⟩ ⟨12, 5, 4, fun _ _ _ => 2⟩
            ⟨12, 5, 4, fun _ _ _ => 7⟩).1,
          (PaleoClim.alignAnomaly ⟨12, 3, 3, fun _ _ _ => -5⟩ ⟨12, 5, 4, fun _ _ _ => 2⟩
            ⟨12, 5, 4, fun _ _ _ => 7⟩).2,
          ⟨3, 3, fun _ _ => 0⟩, [], ⟨12, 3, 3, fun _ _ _ => 0⟩,
          ⟨12, 3, 3, fun _ _ _ => 0⟩⟩).1.air_temp.nx
      = (⟨12, 3, 3, fun _ _ _ => (-5 : ℚ)⟩ : Grid3).nx := by
  obtain ⟨hs, hv, hu⟩ := anomaly_crop_to_observed_shape ⟨1, -13/2000⟩
    ⟨0, -100, ⟨12, 3, 3, fun _ _ _ => -5⟩, ⟨3, 3, fun _ _ => 50⟩,
      (PaleoClim.alignAnomaly ⟨12, 3, 3, fun _ _ _ => -5⟩ ⟨12, 5, 4, fun _ _ _ => 2⟩
        ⟨12, 5, 4, fun _ _ _ => 7⟩).1,
      (PaleoClim.alignAnomaly ⟨12, 3, 3, fun _ _ _ => -5⟩ ⟨12, 5, 4, fun _ _ _ => 2⟩
        ⟨12, 5, 4, fun _ _ _ => 7⟩).2,
      ⟨3, 3, fun _ _ => 0⟩, [], ⟨12, 3, 3, fun _ _ _ => 0⟩, ⟨12, 3, 3, fun _ _ _ => 0⟩⟩
    ⟨12, 5, 4, fun _ _ _ => 2⟩ ⟨12, 5, 4, fun _ _ _ => 7⟩
    (by decide) (by decide) (by decide) (by decide) (by decide)
    rfl rfl (Or.inl rfl) rfl rfl rfl rfl rfl (by norm_num)
  exact ⟨hs, hv 0 0 0, hu⟩
